import Mathlib

/-!
Verification development for the PunchCards repository.

The repository is a Next.js form application: each page holds a typed form
record (`interface ...Data` with a `defaultFormData` constant), a pure
`generateXML` template function interpolating the form values into a fixed
task-card skeleton, a `sanitizeFilename` helper, per-rating label lookup
functions (`labels[val - 1]`), and a `downloadXML` export whose filename is
derived from the sanitized title.

The definitions below are a shallow embedding of exactly that code:

* strings are Lean `String`s; a JavaScript template literal
  `` `a${x}b` `` becomes the concatenation `"a" ++ x ++ "b"`, written as a
  list of chunks joined by `sjoin` so that each interpolated element can be
  located inside the output;
* the JavaScript falsy-default idiom `v || 'fallback'` on strings becomes
  `orD v fallback` (empty-string test, no trimming);
* the JavaScript array read `labels[val - 1]` (with `undefined`
  stringifying to `"undefined"` if it were ever out of range) becomes
  `jsGet labels (val - 1)`;
* `title.toLowerCase()` is embedded as ASCII case mapping
  (`Char.toLower`); the claims under study never depend on non-ASCII case
  mapping, because every non-ASCII letter is removed by the following
  `[^a-z0-9\s-]` strip either way;
* `replace(/\s+/g, '_')` and `replace(/\-+/g, '_')` - replace every maximal
  run of matching characters by one `'_'` - become `collapseRuns`;
  `substring(0, 50)` becomes `List.take 50`.
-/

/-- JS falsy-default on strings: `v || fb` yields `fb` exactly when `v` is `""`. -/
def orD (v fb : String) : String :=
  if v = "" then fb else v

/-- JS array indexing `l[i]` as interpolated into a template literal: the
element for `0 ≤ i < l.length`, and the string `"undefined"` outside that
range (JS yields `undefined`, which stringifies so). -/
def jsGet (l : List String) (i : Int) : String :=
  if 0 ≤ i then l.getD i.toNat "undefined" else "undefined"

/-- The character class `\s` of JavaScript regular expressions. -/
def isJsWhitespace (c : Char) : Bool :=
  c == ' ' || c == '\t' || c == '\n' || c == '\x0b' || c == '\x0c' || c == '\r' ||
  c == '\u00A0' || c == '\u1680' || (0x2000 ≤ c.val && c.val ≤ 0x200A) ||
  c == '\u2028' || c == '\u2029' || c == '\u202F' || c == '\u205F' ||
  c == '\u3000' || c == '\uFEFF'

/-- The character class `[a-z0-9\s-]` kept by the sanitizer's strip step. -/
def sanitizeKeep (c : Char) : Bool :=
  ('a' ≤ c && c ≤ 'z') || ('0' ≤ c && c ≤ '9') || isJsWhitespace c || c == '-'

/-- `replace(/X+/g, r)` - every maximal run of characters matching `p` is
replaced by the single character `r` - as the regex engine performs it: scan
left to right; a match begins at each `p`-character that is not already
inside a run (`inRun = false`), emits one `r`, and the rest of the run is
consumed with `inRun = true`. -/
def collapseRuns (p : Char → Bool) (r : Char) (inRun : Bool) : List Char → List Char
  | [] => []
  | c :: cs =>
    if p c then
      if inRun then collapseRuns p r true cs
      else r :: collapseRuns p r true cs
    else c :: collapseRuns p r false cs

/-- Run collapsing as the specification words it - each run of matching
characters becomes a single `r` - formulated independently by pairwise
lookahead: of two adjacent matching characters the first is dropped, and a
matching character not followed by a matching character becomes `r`. -/
def collapseRunsSpec (p : Char → Bool) (r : Char) : List Char → List Char
  | [] => []
  | [c] => if p c then [r] else [c]
  | c1 :: c2 :: cs =>
    if p c1 && p c2 then collapseRunsSpec p r (c2 :: cs)
    else (if p c1 then r else c1) :: collapseRunsSpec p r (c2 :: cs)

/-- `sanitizeFilename` as the pages declare it (each of the six titled or
exporting pages contains this identical arrow function): lowercase, strip
characters outside `[a-z0-9\s-]`, collapse whitespace runs to `_`, collapse
dash runs to `_`, truncate to 50 characters, and default the empty result to
`"untitled"` via `|| 'untitled'`. -/
def sanitizeFilename (title : String) : String :=
  let lowered := title.data.map Char.toLower
  let stripped := lowered.filter sanitizeKeep
  let wsCollapsed := collapseRuns isJsWhitespace '_' false stripped
  let dashCollapsed := collapseRuns (fun c => c == '-') '_' false wsCollapsed
  let truncated := dashCollapsed.take 50
  if truncated.isEmpty then "untitled" else String.mk truncated

/-- The sanitizer pipeline as the specification words it, using the
pairwise-lookahead formulation of run collapsing. -/
def sanitizeSpec (title : String) : String :=
  let lowered := title.data.map Char.toLower
  let stripped := lowered.filter sanitizeKeep
  let wsCollapsed := collapseRunsSpec isJsWhitespace '_' stripped
  let dashCollapsed := collapseRunsSpec (fun c => c == '-') '_' wsCollapsed
  let truncated := dashCollapsed.take 50
  if truncated.isEmpty then "untitled" else String.mk truncated

/-- `s` contains `m` as a contiguous substring. -/
def ContainsSub (s m : String) : Prop :=
  List.IsInfix m.data s.data

instance (s m : String) : Decidable (ContainsSub s m) :=
  List.decidableInfix _ _

/-- Concatenation of a list of string chunks; the embedding of a template
literal split at its interpolation sites. -/
def sjoin : List String → String
  | [] => ""
  | c :: cs => c ++ sjoin cs

/-- `render` emits, for the optional text field read by `g`, the element
`opTag …value-or-fallback… clTag`, where the value is defaulted to `fb`
exactly when it is the empty string. -/
def EmitsOpt {α : Type} (render : α → String) (g : α → String)
    (opTag clTag fb : String) : Prop :=
  ∀ d, ContainsSub (render d) (opTag ++ (if g d = "" then fb else g d) ++ clTag)

/-- `render` emits, for the rating field read by `g` with value in `1..5`,
the element `opAttr` + numeric level + closing quote + the `(g d)`-th entry
of the 5-entry label list + `clTag`. -/
def EmitsRating {α : Type} (render : α → String) (g : α → Int)
    (opAttr : String) (labels : List String) (clTag : String) : Prop :=
  ∀ d, 1 ≤ g d → g d ≤ 5 →
    ContainsSub (render d)
      (opAttr ++ toString (g d) ++ "\">" ++ labels.getD (g d - 1).toNat "undefined" ++ clTag)

/-- `render` emits the documentation-requirement payload: the output path
`punchcards/<sanitized title>.md`, the `detail_level` element with the
selected depth and its label, and the fixed five-line format legend. -/
def EmitsDocBlock {α : Type} (render : α → String) (gTitle : α → String)
    (gDepth : α → Int) (lbl : Int → String) : Prop :=
  ∀ d, ContainsSub (render d)
        ("<output_path>punchcards/" ++ sanitizeFilename (gTitle d) ++ ".md</output_path>")
    ∧ ContainsSub (render d)
        ("<detail_level level=\"" ++ toString (gDepth d) ++ "\">" ++ lbl (gDepth d) ++ "</detail_level>")
    ∧ ContainsSub (render d) "Level 1: Task title, one-line summary, files changed (bullet list)"
    ∧ ContainsSub (render d) "Level 2: Above + brief problem/solution description"
    ∧ ContainsSub (render d) "Level 3: Above + key decisions made, testing notes"
    ∧ ContainsSub (render d) "Level 4: Above + detailed reasoning, edge cases considered, related issues"
    ∧ ContainsSub (render d) "Level 5: Above + full context, alternative approaches considered, future considerations"

namespace BugFix

/-- Form state record of the BugFix page, field for field as in the source interface `BugFixData`. -/
structure BugFixData where
  punchcardTitle : String
  documentationDepth : Int
  observedBehavior : String
  expectedBehavior : String
  stepsToReproduce : String
  errorMessages : String
  affectedFiles : String
  environment : String
  urgency : Int
  testingLevel : Int
  creativityLevel : Int
  filesToIgnore : String
  extraInfo : String
  codebaseVersion : String
  gitBranch : String
  lastWorkingCommit : String
  relatedIssues : String
  suspectedRootCause : String
  osVersion : String
  nodeVersion : String
  browserVersion : String
  databaseVersion : String
  dockerConfig : String
  frequencyOfBug : String
  dataConditions : String
  userPermissions : String
  networkConditions : String
  concurrencyScenario : String
  preferredFixApproach : String
  avoidPatterns : String
  performanceConstraints : String
  memoryConstraints : String
  timeoutRequirements : String
  existingTestFiles : String
  testFramework : String
  mockRequirements : String
  coverageTarget : String
  e2eConsiderations : String
  logVerbosity : Int
  includeComments : Bool
  generateTypes : Bool
  updateDocs : Bool
  createChangelog : Bool

/-- The `defaultFormData` constant of the BugFix page. -/
def defaultFormData : BugFixData where
  punchcardTitle := ""
  documentationDepth := 3
  observedBehavior := ""
  expectedBehavior := ""
  stepsToReproduce := ""
  errorMessages := ""
  affectedFiles := ""
  environment := ""
  urgency := 3
  testingLevel := 3
  creativityLevel := 2
  filesToIgnore := ""
  extraInfo := ""
  codebaseVersion := ""
  gitBranch := ""
  lastWorkingCommit := ""
  relatedIssues := ""
  suspectedRootCause := ""
  osVersion := ""
  nodeVersion := ""
  browserVersion := ""
  databaseVersion := ""
  dockerConfig := ""
  frequencyOfBug := ""
  dataConditions := ""
  userPermissions := ""
  networkConditions := ""
  concurrencyScenario := ""
  preferredFixApproach := ""
  avoidPatterns := ""
  performanceConstraints := ""
  memoryConstraints := ""
  timeoutRequirements := ""
  existingTestFiles := ""
  testFramework := ""
  mockRequirements := ""
  coverageTarget := ""
  e2eConsiderations := ""
  logVerbosity := 3
  includeComments := true
  generateTypes := false
  updateDocs := false
  createChangelog := false

/-- Label lookup `getUrgencyLabel` of the BugFix page: `labels[val - 1]` on a fixed 5-entry list. -/
def getUrgencyLabel (val : Int) : String :=
  jsGet ["Low - whenever", "Minor - soon", "Normal", "High - ASAP", "Critical - NOW"] (val - 1)

/-- Label lookup `getTestingLabel` of the BugFix page: `labels[val - 1]` on a fixed 5-entry list. -/
def getTestingLabel (val : Int) : String :=
  jsGet ["Minimal - just verify fix", "Light - basic tests", "Standard", "Thorough - edge cases", "Exhaustive - full coverage"] (val - 1)

/-- Label lookup `getCreativityLabel` of the BugFix page: `labels[val - 1]` on a fixed 5-entry list. -/
def getCreativityLabel (val : Int) : String :=
  jsGet ["Conservative - safest fix", "Cautious", "Balanced", "Open to ideas", "Creative - explore options"] (val - 1)

/-- Label lookup `getVerbosityLabel` of the BugFix page: `labels[val - 1]` on a fixed 5-entry list. -/
def getVerbosityLabel (val : Int) : String :=
  jsGet ["Silent - errors only", "Quiet", "Normal", "Verbose", "Debug - everything"] (val - 1)

/-- Label lookup `getDocDepthLabel` of the BugFix page: `labels[val - 1]` on a fixed 5-entry list. -/
def getDocDepthLabel (val : Int) : String :=
  jsGet ["Minimal - snappy dot points", "Brief - key points only", "Standard - balanced detail", "Detailed - thorough coverage", "Deep - comprehensive documentation"] (val - 1)

/-- The template literal of `generateXML` of the BugFix page, split into chunks at each interpolation site; `sjoin chunks` is byte for byte the template string. -/
def chunks (d : BugFixData) : List String :=
  ["<task_card type=\"bug_fix\" title=\"",
   orD d.punchcardTitle "Untitled Bug Fix",
   "\">",
   "\n    <meta_instruction>\n        DO NOT fix the code immediately. Follow this strict process:\n",
   "        0. CONTEXT STUDY: Deeply analyze the provided codebase. Identify the files involved in the error, trace the execution flow, and understand the expected state vs actual state.\n",
   "        1. ANALYZE: Read the provided stack trace/behavior in relation to your codebase study.\n",
   "        2. REPRODUCE: Write a standalone reproduction script or test case that fails.\n",
   "        3. CONFIRM: Wait for me to run the script and confirm the failure.\n",
   "        4. FIX: Apply the fix to the codebase.\n",
   "        5. VERIFY: Run the reproduction script again to prove it passes.\n    </meta_instruction>\n\n",
   "    <documentation_requirement>\n",
   "        <instruction>After completing this task, create a markdown file documenting the work done.</instruction>\n",
   "        ",
   "<output_path>punchcards/" ++ sanitizeFilename d.punchcardTitle ++ ".md</output_path>",
   "\n        ",
   "<detail_level level=\"" ++ toString d.documentationDepth ++ "\">" ++ getDocDepthLabel d.documentationDepth ++ "</detail_level>",
   "\n        <format>\n            Level 1: Task title, one-line summary, files changed (bullet list)\n",
   "            Level 2: Above + brief problem/solution description\n",
   "            Level 3: Above + key decisions made, testing notes\n",
   "            Level 4: Above + detailed reasoning, edge cases considered, related issues\n",
   "            Level 5: Above + full context, alternative approaches considered, future considerations\n",
   "        </format>\n    </documentation_requirement>\n\n    <bug_details>\n        ",
   "<observed_behavior>" ++ d.observedBehavior ++ "</observed_behavior>",
   "\n        ",
   "<expected_behavior>" ++ d.expectedBehavior ++ "</expected_behavior>",
   "\n        ",
   "<steps_to_reproduce>" ++ d.stepsToReproduce ++ "</steps_to_reproduce>",
   "\n        ",
   "<error_messages>" ++ orD d.errorMessages "N/A" ++ "</error_messages>",
   "\n        ",
   "<affected_files>" ++ orD d.affectedFiles "Unknown - please investigate" ++ "</affected_files>",
   "\n        ",
   "<environment>" ++ orD d.environment "Not specified" ++ "</environment>",
   "\n    </bug_details>\n\n    <preferences>\n        ",
   "<urgency level=\"" ++ toString d.urgency ++ "\">" ++ getUrgencyLabel d.urgency ++ "</urgency>",
   "\n        ",
   "<testing_level level=\"" ++ toString d.testingLevel ++ "\">" ++ getTestingLabel d.testingLevel ++ "</testing_level>",
   "\n        ",
   "<creativity_level level=\"" ++ toString d.creativityLevel ++ "\">" ++ getCreativityLabel d.creativityLevel ++ "</creativity_level>",
   "\n        ",
   "<files_to_ignore>" ++ orD d.filesToIgnore "None" ++ "</files_to_ignore>",
   "\n        ",
   "<extra_info>" ++ orD d.extraInfo "None" ++ "</extra_info>",
   "\n    </preferences>\n\n    <advanced_config>\n        <analysis>\n            ",
   "<codebase_version>" ++ orD d.codebaseVersion "Not specified" ++ "</codebase_version>",
   "\n            ",
   "<git_branch>" ++ orD d.gitBranch "Not specified" ++ "</git_branch>",
   "\n            ",
   "<last_working_commit>" ++ orD d.lastWorkingCommit "Unknown" ++ "</last_working_commit>",
   "\n            ",
   "<related_issues>" ++ orD d.relatedIssues "None" ++ "</related_issues>",
   "\n            ",
   "<suspected_root_cause>" ++ orD d.suspectedRootCause "Unknown" ++ "</suspected_root_cause>",
   "\n        </analysis>\n        <environment_details>\n            ",
   "<os_version>" ++ orD d.osVersion "Not specified" ++ "</os_version>",
   "\n            ",
   "<node_version>" ++ orD d.nodeVersion "Not specified" ++ "</node_version>",
   "\n            ",
   "<browser_version>" ++ orD d.browserVersion "Not specified" ++ "</browser_version>",
   "\n            ",
   "<database_version>" ++ orD d.databaseVersion "Not specified" ++ "</database_version>",
   "\n            ",
   "<docker_config>" ++ orD d.dockerConfig "None" ++ "</docker_config>",
   "\n        </environment_details>\n        <reproduction_context>\n            ",
   "<frequency>" ++ orD d.frequencyOfBug "Not specified" ++ "</frequency>",
   "\n            ",
   "<data_conditions>" ++ orD d.dataConditions "Not specified" ++ "</data_conditions>",
   "\n            ",
   "<user_permissions>" ++ orD d.userPermissions "Not specified" ++ "</user_permissions>",
   "\n            ",
   "<network_conditions>" ++ orD d.networkConditions "Not specified" ++ "</network_conditions>",
   "\n            ",
   "<concurrency_scenario>" ++ orD d.concurrencyScenario "None" ++ "</concurrency_scenario>",
   "\n        </reproduction_context>\n        <fix_preferences>\n            ",
   "<preferred_approach>" ++ orD d.preferredFixApproach "No preference" ++ "</preferred_approach>",
   "\n            ",
   "<avoid_patterns>" ++ orD d.avoidPatterns "None" ++ "</avoid_patterns>",
   "\n            ",
   "<performance_constraints>" ++ orD d.performanceConstraints "None" ++ "</performance_constraints>",
   "\n            ",
   "<memory_constraints>" ++ orD d.memoryConstraints "None" ++ "</memory_constraints>",
   "\n            ",
   "<timeout_requirements>" ++ orD d.timeoutRequirements "None" ++ "</timeout_requirements>",
   "\n        </fix_preferences>\n        <testing_config>\n            ",
   "<existing_test_files>" ++ orD d.existingTestFiles "None specified" ++ "</existing_test_files>",
   "\n            ",
   "<test_framework>" ++ orD d.testFramework "Use project default" ++ "</test_framework>",
   "\n            ",
   "<mock_requirements>" ++ orD d.mockRequirements "None" ++ "</mock_requirements>",
   "\n            ",
   "<coverage_target>" ++ orD d.coverageTarget "Not specified" ++ "</coverage_target>",
   "\n            ",
   "<e2e_considerations>" ++ orD d.e2eConsiderations "None" ++ "</e2e_considerations>",
   "\n        </testing_config>\n        <output_preferences>\n            ",
   "<log_verbosity level=\"" ++ toString d.logVerbosity ++ "\">" ++ getVerbosityLabel d.logVerbosity ++ "</log_verbosity>",
   "\n            ",
   "<include_comments>" ++ (if d.includeComments then "Yes" else "No") ++ "</include_comments>",
   "\n            ",
   "<generate_types>" ++ (if d.generateTypes then "Yes" else "No") ++ "</generate_types>",
   "\n            ",
   "<update_docs>" ++ (if d.updateDocs then "Yes" else "No") ++ "</update_docs>",
   "\n            ",
   "<create_changelog>" ++ (if d.createChangelog then "Yes" else "No") ++ "</create_changelog>",
   "\n        </output_preferences>\n    </advanced_config>\n</task_card>"]

/-- `generateXML` of the BugFix page: the filled-in task card template. -/
def generateXML (d : BugFixData) : String :=
  sjoin (chunks d)

/-- The filename computed by `downloadXML` of the BugFix page. -/
def downloadFilename (d : BugFixData) : String :=
  sanitizeFilename d.punchcardTitle ++ "_bug_fix.xml"

end BugFix

namespace FeatureRequest

/-- Form state record of the FeatureRequest page, field for field as in the source interface `FeatureRequestData`. -/
structure FeatureRequestData where
  punchcardTitle : String
  documentationDepth : Int
  goal : String
  userStory : String
  acceptanceCriteria : String
  constraints : String
  referenceFiles : String
  techStack : String
  stylingGuidelines : String
  creativityLevel : Int
  scopeLevel : Int
  documentationLevel : Int
  filesToIgnore : String
  extraInfo : String
  designPatterns : String
  folderStructure : String
  namingConventions : String
  stateManagement : String
  apiDesign : String
  dataModels : String
  databaseSchema : String
  validationRules : String
  dataTransformations : String
  caching : String
  componentLibrary : String
  responsiveBreakpoints : String
  accessibilityLevel : String
  animationPrefs : String
  darkModeSupport : Bool
  apiEndpoints : String
  authRequirements : String
  thirdPartyServices : String
  webhooks : String
  eventSystem : String
  lazyLoading : Bool
  bundleSizeLimit : String
  renderingStrategy : String
  optimisticUpdates : Bool
  infiniteScroll : Bool
  errorHandlingStrategy : String
  loggingLevel : Int
  monitoringIntegration : String
  featureFlags : Bool
  abTesting : Bool

/-- The `defaultFormData` constant of the FeatureRequest page. -/
def defaultFormData : FeatureRequestData where
  punchcardTitle := ""
  documentationDepth := 3
  goal := ""
  userStory := ""
  acceptanceCriteria := ""
  constraints := ""
  referenceFiles := ""
  techStack := ""
  stylingGuidelines := ""
  creativityLevel := 3
  scopeLevel := 3
  documentationLevel := 3
  filesToIgnore := ""
  extraInfo := ""
  designPatterns := ""
  folderStructure := ""
  namingConventions := ""
  stateManagement := ""
  apiDesign := ""
  dataModels := ""
  databaseSchema := ""
  validationRules := ""
  dataTransformations := ""
  caching := ""
  componentLibrary := ""
  responsiveBreakpoints := ""
  accessibilityLevel := ""
  animationPrefs := ""
  darkModeSupport := false
  apiEndpoints := ""
  authRequirements := ""
  thirdPartyServices := ""
  webhooks := ""
  eventSystem := ""
  lazyLoading := false
  bundleSizeLimit := ""
  renderingStrategy := ""
  optimisticUpdates := false
  infiniteScroll := false
  errorHandlingStrategy := ""
  loggingLevel := 3
  monitoringIntegration := ""
  featureFlags := false
  abTesting := false

/-- Label lookup `getCreativityLabel` of the FeatureRequest page: `labels[val - 1]` on a fixed 5-entry list. -/
def getCreativityLabel (val : Int) : String :=
  jsGet ["Conservative - follow patterns strictly", "Cautious - minimal innovation", "Balanced", "Open - suggest improvements", "Creative - propose best solutions"] (val - 1)

/-- Label lookup `getScopeLabel` of the FeatureRequest page: `labels[val - 1]` on a fixed 5-entry list. -/
def getScopeLabel (val : Int) : String :=
  jsGet ["MVP - bare minimum", "Lean - essential only", "Standard", "Complete - polish included", "Comprehensive - full bells & whistles"] (val - 1)

/-- Label lookup `getDocumentationLabel` of the FeatureRequest page: `labels[val - 1]` on a fixed 5-entry list. -/
def getDocumentationLabel (val : Int) : String :=
  jsGet ["None - just code", "Minimal - key comments", "Standard", "Detailed - inline docs", "Extensive - full documentation"] (val - 1)

/-- Label lookup `getLoggingLabel` of the FeatureRequest page: `labels[val - 1]` on a fixed 5-entry list. -/
def getLoggingLabel (val : Int) : String :=
  jsGet ["None", "Errors only", "Standard", "Verbose", "Debug everything"] (val - 1)

/-- Label lookup `getDocDepthLabel` of the FeatureRequest page: `labels[val - 1]` on a fixed 5-entry list. -/
def getDocDepthLabel (val : Int) : String :=
  jsGet ["Minimal - snappy dot points", "Brief - key points only", "Standard - balanced detail", "Detailed - thorough coverage", "Deep - comprehensive documentation"] (val - 1)

/-- The template literal of `generateXML` of the FeatureRequest page, split into chunks at each interpolation site; `sjoin chunks` is byte for byte the template string. -/
def chunks (d : FeatureRequestData) : List String :=
  ["<task_card type=\"feature_request\" title=\"",
   orD d.punchcardTitle "Untitled Feature Request",
   "\">",
   "\n  <meta_instruction>\n    Adopt a \"Skeleton-of-Thought\" approach:\n",
   "    0. CONTEXT STUDY: Review the existing project structure, design patterns, and utility libraries. Ensure new additions align with established coding conventions.\n",
   "    1. ARCHITECTURE: Summarize the files you need to create or modify based on your study.\n",
   "    2. CONTRACTS: Write the Interfaces, Types, or DB Schemas FIRST.\n",
   "    3. STOP: Ask for my approval on the interfaces before writing logic.\n",
   "    4. IMPLEMENT: Once approved, write the implementation logic.\n  </meta_instruction>\n\n",
   "  <documentation_requirement>\n",
   "    <instruction>After completing this task, create a markdown file documenting the work done.</instruction>\n",
   "    ",
   "<output_path>punchcards/" ++ sanitizeFilename d.punchcardTitle ++ ".md</output_path>",
   "\n    ",
   "<detail_level level=\"" ++ toString d.documentationDepth ++ "\">" ++ getDocDepthLabel d.documentationDepth ++ "</detail_level>",
   "\n    <format>\n      Level 1: Task title, one-line summary, files changed (bullet list)\n",
   "      Level 2: Above + brief problem/solution description\n",
   "      Level 3: Above + key decisions made, testing notes\n",
   "      Level 4: Above + detailed reasoning, edge cases considered, related issues\n",
   "      Level 5: Above + full context, alternative approaches considered, future considerations\n    </format>\n",
   "  </documentation_requirement>\n\n  <feature_details>\n    ",
   "<goal>" ++ d.goal ++ "</goal>",
   "\n    ",
   "<user_story>" ++ d.userStory ++ "</user_story>",
   "\n    ",
   "<acceptance_criteria>" ++ orD d.acceptanceCriteria "Not specified - use your judgment" ++ "</acceptance_criteria>",
   "\n    ",
   "<constraints>" ++ orD d.constraints "None specified" ++ "</constraints>",
   "\n    ",
   "<reference_files>" ++ orD d.referenceFiles "None specified - explore codebase" ++ "</reference_files>",
   "\n    ",
   "<tech_stack>" ++ orD d.techStack "Follow existing project patterns" ++ "</tech_stack>",
   "\n    ",
   "<styling_guidelines>" ++ orD d.stylingGuidelines "Follow existing patterns" ++ "</styling_guidelines>",
   "\n  </feature_details>\n\n  <preferences>\n    ",
   "<creativity_level level=\"" ++ toString d.creativityLevel ++ "\">" ++ getCreativityLabel d.creativityLevel ++ "</creativity_level>",
   "\n    ",
   "<scope_level level=\"" ++ toString d.scopeLevel ++ "\">" ++ getScopeLabel d.scopeLevel ++ "</scope_level>",
   "\n    ",
   "<documentation_level level=\"" ++ toString d.documentationLevel ++ "\">" ++ getDocumentationLabel d.documentationLevel ++ "</documentation_level>",
   "\n    ",
   "<files_to_ignore>" ++ orD d.filesToIgnore "None" ++ "</files_to_ignore>",
   "\n    ",
   "<extra_info>" ++ orD d.extraInfo "None" ++ "</extra_info>",
   "\n  </preferences>\n\n  <advanced_config>\n    <architecture>\n      ",
   "<design_patterns>" ++ orD d.designPatterns "Follow existing" ++ "</design_patterns>",
   "\n      ",
   "<folder_structure>" ++ orD d.folderStructure "Follow existing" ++ "</folder_structure>",
   "\n      ",
   "<naming_conventions>" ++ orD d.namingConventions "Follow existing" ++ "</naming_conventions>",
   "\n      ",
   "<state_management>" ++ orD d.stateManagement "Follow existing" ++ "</state_management>",
   "\n      ",
   "<api_design>" ++ orD d.apiDesign "RESTful default" ++ "</api_design>",
   "\n    </architecture>\n    <data>\n      ",
   "<data_models>" ++ orD d.dataModels "Not specified" ++ "</data_models>",
   "\n      ",
   "<database_schema>" ++ orD d.databaseSchema "Not specified" ++ "</database_schema>",
   "\n      ",
   "<validation_rules>" ++ orD d.validationRules "Standard validation" ++ "</validation_rules>",
   "\n      ",
   "<data_transformations>" ++ orD d.dataTransformations "None specified" ++ "</data_transformations>",
   "\n      ",
   "<caching_strategy>" ++ orD d.caching "Default" ++ "</caching_strategy>",
   "\n    </data>\n    <ui_ux>\n      ",
   "<component_library>" ++ orD d.componentLibrary "Use existing" ++ "</component_library>",
   "\n      ",
   "<responsive_breakpoints>" ++ orD d.responsiveBreakpoints "Standard breakpoints" ++ "</responsive_breakpoints>",
   "\n      ",
   "<accessibility_level>" ++ orD d.accessibilityLevel "WCAG AA" ++ "</accessibility_level>",
   "\n      ",
   "<animation_preferences>" ++ orD d.animationPrefs "Subtle" ++ "</animation_preferences>",
   "\n      ",
   "<dark_mode_support>" ++ (if d.darkModeSupport then "Yes" else "No") ++ "</dark_mode_support>",
   "\n    </ui_ux>\n    <integration>\n      ",
   "<api_endpoints>" ++ orD d.apiEndpoints "Not specified" ++ "</api_endpoints>",
   "\n      ",
   "<auth_requirements>" ++ orD d.authRequirements "Follow existing auth" ++ "</auth_requirements>",
   "\n      ",
   "<third_party_services>" ++ orD d.thirdPartyServices "None" ++ "</third_party_services>",
   "\n      ",
   "<webhooks>" ++ orD d.webhooks "None" ++ "</webhooks>",
   "\n      ",
   "<event_system>" ++ orD d.eventSystem "None" ++ "</event_system>",
   "\n    </integration>\n    <performance>\n      ",
   "<lazy_loading>" ++ (if d.lazyLoading then "Yes" else "No") ++ "</lazy_loading>",
   "\n      ",
   "<bundle_size_limit>" ++ orD d.bundleSizeLimit "No strict limit" ++ "</bundle_size_limit>",
   "\n      ",
   "<rendering_strategy>" ++ orD d.renderingStrategy "Default" ++ "</rendering_strategy>",
   "\n      ",
   "<optimistic_updates>" ++ (if d.optimisticUpdates then "Yes" else "No") ++ "</optimistic_updates>",
   "\n      ",
   "<infinite_scroll>" ++ (if d.infiniteScroll then "Yes" else "No") ++ "</infinite_scroll>",
   "\n    </performance>\n    <quality>\n      ",
   "<error_handling_strategy>" ++ orD d.errorHandlingStrategy "Standard try-catch" ++ "</error_handling_strategy>",
   "\n      ",
   "<logging_level level=\"" ++ toString d.loggingLevel ++ "\">" ++ getLoggingLabel d.loggingLevel ++ "</logging_level>",
   "\n      ",
   "<monitoring_integration>" ++ orD d.monitoringIntegration "None" ++ "</monitoring_integration>",
   "\n      ",
   "<feature_flags>" ++ (if d.featureFlags then "Yes" else "No") ++ "</feature_flags>",
   "\n      ",
   "<ab_testing>" ++ (if d.abTesting then "Yes" else "No") ++ "</ab_testing>",
   "\n    </quality>\n  </advanced_config>\n</task_card>"]

/-- `generateXML` of the FeatureRequest page: the filled-in task card template. -/
def generateXML (d : FeatureRequestData) : String :=
  sjoin (chunks d)

/-- The filename computed by `downloadXML` of the FeatureRequest page. -/
def downloadFilename (d : FeatureRequestData) : String :=
  sanitizeFilename d.punchcardTitle ++ "_feature_request.xml"

end FeatureRequest

namespace FeatureChange

/-- Form state record of the FeatureChange page, field for field as in the source interface `FeatureChangeData`. -/
structure FeatureChangeData where
  punchcardTitle : String
  enableDocumentation : Bool
  documentationDepth : Int
  targetFunctionality : String
  desiredChange : String
  reasoning : String
  affectedAreas : String
  backwardCompatibility : String
  migrationNotes : String
  testingLevel : Int
  riskTolerance : Int
  scopeLevel : Int
  breakingChangesOk : Bool
  filesToIgnore : String
  extraInfo : String
  upstreamDependencies : String
  downstreamConsumers : String
  sharedUtilities : String
  affectedTests : String
  affectedDocs : String
  migrationStrategy : String
  rollbackPlan : String
  dataTransformation : String
  featureFlagStrategy : String
  gradualRollout : Bool
  refactorDepth : Int
  deadCodeRemoval : Bool
  extractComponents : Bool
  consolidateDuplicates : Bool
  improveNaming : Bool
  apiVersioning : String
  deprecationStrategy : String
  legacySupport : String
  browserSupport : String
  mobileSupport : String
  regressionTestScope : String
  integrationTests : String
  performanceBenchmarks : String
  snapshotUpdates : Bool
  manualTestCases : String
  notifyTeams : String
  documentationUpdates : String
  changelogEntry : String
  releaseNotes : String
  userCommunication : String

/-- The `defaultFormData` constant of the FeatureChange page. -/
def defaultFormData : FeatureChangeData where
  punchcardTitle := ""
  enableDocumentation := true
  documentationDepth := 3
  targetFunctionality := ""
  desiredChange := ""
  reasoning := ""
  affectedAreas := ""
  backwardCompatibility := ""
  migrationNotes := ""
  testingLevel := 3
  riskTolerance := 2
  scopeLevel := 3
  breakingChangesOk := false
  filesToIgnore := ""
  extraInfo := ""
  upstreamDependencies := ""
  downstreamConsumers := ""
  sharedUtilities := ""
  affectedTests := ""
  affectedDocs := ""
  migrationStrategy := ""
  rollbackPlan := ""
  dataTransformation := ""
  featureFlagStrategy := ""
  gradualRollout := false
  refactorDepth := 2
  deadCodeRemoval := false
  extractComponents := false
  consolidateDuplicates := false
  improveNaming := false
  apiVersioning := ""
  deprecationStrategy := ""
  legacySupport := ""
  browserSupport := ""
  mobileSupport := ""
  regressionTestScope := ""
  integrationTests := ""
  performanceBenchmarks := ""
  snapshotUpdates := false
  manualTestCases := ""
  notifyTeams := ""
  documentationUpdates := ""
  changelogEntry := ""
  releaseNotes := ""
  userCommunication := ""

/-- Label lookup `getTestingLabel` of the FeatureChange page: `labels[val - 1]` on a fixed 5-entry list. -/
def getTestingLabel (val : Int) : String :=
  jsGet ["Minimal - trust the change", "Light - spot check", "Standard", "Thorough - regression tests", "Exhaustive - full test suite"] (val - 1)

/-- Label lookup `getRiskLabel` of the FeatureChange page: `labels[val - 1]` on a fixed 5-entry list. -/
def getRiskLabel (val : Int) : String :=
  jsGet ["Very cautious - safest approach", "Conservative", "Balanced", "Open to moderate risk", "Bold - willing to refactor heavily"] (val - 1)

/-- Label lookup `getScopeLabel` of the FeatureChange page: `labels[val - 1]` on a fixed 5-entry list. -/
def getScopeLabel (val : Int) : String :=
  jsGet ["Minimal - only what\x27s needed", "Focused", "Standard", "Broader - related improvements", "Comprehensive - full cleanup"] (val - 1)

/-- Label lookup `getRefactorLabel` of the FeatureChange page: `labels[val - 1]` on a fixed 5-entry list. -/
def getRefactorLabel (val : Int) : String :=
  jsGet ["Surface - cosmetic only", "Shallow", "Moderate", "Deep", "Complete rewrite if needed"] (val - 1)

/-- Label lookup `getDocDepthLabel` of the FeatureChange page: `labels[val - 1]` on a fixed 5-entry list. -/
def getDocDepthLabel (val : Int) : String :=
  jsGet ["Minimal - snappy dot points", "Brief - key points only", "Standard - balanced detail", "Detailed - thorough coverage", "Deep - comprehensive documentation"] (val - 1)

/-- Chunks of the conditional `documentationBlock` template literal of the FeatureChange page. -/
def docChunks (d : FeatureChangeData) : List String :=
  ["\n  <documentation_requirement>\n",
   "    <instruction>After completing this task, create a markdown file documenting the work done.</instruction>\n",
   "    ",
   "<output_path>punchcards/" ++ sanitizeFilename d.punchcardTitle ++ ".md</output_path>",
   "\n    ",
   "<detail_level level=\"" ++ toString d.documentationDepth ++ "\">" ++ getDocDepthLabel d.documentationDepth ++ "</detail_level>",
   "\n    <format>\n      Level 1: Task title, one-line summary, files changed (bullet list)\n",
   "      Level 2: Above + brief problem/solution description\n",
   "      Level 3: Above + key decisions made, testing notes\n",
   "      Level 4: Above + detailed reasoning, edge cases considered, related issues\n",
   "      Level 5: Above + full context, alternative approaches considered, future considerations\n    </format>\n",
   "  </documentation_requirement>\n"]

/-- The `documentationBlock` local of `generateXML`: the block template when `enableDocumentation`, else the empty string. -/
def docBlock (d : FeatureChangeData) : String :=
  if d.enableDocumentation then sjoin (docChunks d) else ""

/-- The template literal of `generateXML` of the FeatureChange page, split into chunks at each interpolation site; `sjoin chunks` is byte for byte the template string. -/
def chunks (d : FeatureChangeData) : List String :=
  ["<task_card type=\"feature_change\" title=\"",
   orD d.punchcardTitle "Untitled Feature Change",
   "\">",
   "\n  <meta_instruction>\n    Perform a \"Safe Refactor\" workflow:\n",
   "    0. CONTEXT STUDY: Map out the dependency graph for the target functionality. Identify all upstream callers and downstream dependencies.\n",
   "    1. IMPACT ANALYSIS: List all files and functions that rely on the code I want to change.\n",
   "    2. PLAN: Explain how you will handle backward compatibility or data migration.\n",
   "    3. EXECUTE: Apply the changes.\n",
   "    4. TEST: Suggest specific regression tests to ensure old features still work.\n  </meta_instruction>\n",
   docBlock d,
   "\n  <change_details>\n    ",
   "<target_functionality>" ++ d.targetFunctionality ++ "</target_functionality>",
   "\n    ",
   "<desired_change>" ++ d.desiredChange ++ "</desired_change>",
   "\n    ",
   "<reasoning>" ++ d.reasoning ++ "</reasoning>",
   "\n    ",
   "<affected_areas>" ++ orD d.affectedAreas "Unknown - please analyze" ++ "</affected_areas>",
   "\n    ",
   "<backward_compatibility_notes>" ++ orD d.backwardCompatibility "Not specified" ++ "</backward_compatibility_notes>",
   "\n    ",
   "<migration_notes>" ++ orD d.migrationNotes "None" ++ "</migration_notes>",
   "\n  </change_details>\n\n  <preferences>\n    ",
   "<testing_level level=\"" ++ toString d.testingLevel ++ "\">" ++ getTestingLabel d.testingLevel ++ "</testing_level>",
   "\n    ",
   "<risk_tolerance level=\"" ++ toString d.riskTolerance ++ "\">" ++ getRiskLabel d.riskTolerance ++ "</risk_tolerance>",
   "\n    ",
   "<scope_level level=\"" ++ toString d.scopeLevel ++ "\">" ++ getScopeLabel d.scopeLevel ++ "</scope_level>",
   "\n    ",
   "<breaking_changes_allowed>" ++ (if d.breakingChangesOk then "Yes - breaking changes are acceptable" else "No - maintain backward compatibility") ++ "</breaking_changes_allowed>",
   "\n    ",
   "<files_to_ignore>" ++ orD d.filesToIgnore "None" ++ "</files_to_ignore>",
   "\n    ",
   "<extra_info>" ++ orD d.extraInfo "None" ++ "</extra_info>",
   "\n  </preferences>\n\n  <advanced_config>\n    <impact_analysis>\n      ",
   "<upstream_dependencies>" ++ orD d.upstreamDependencies "Not specified" ++ "</upstream_dependencies>",
   "\n      ",
   "<downstream_consumers>" ++ orD d.downstreamConsumers "Not specified" ++ "</downstream_consumers>",
   "\n      ",
   "<shared_utilities>" ++ orD d.sharedUtilities "Not specified" ++ "</shared_utilities>",
   "\n      ",
   "<affected_tests>" ++ orD d.affectedTests "Not specified" ++ "</affected_tests>",
   "\n      ",
   "<affected_docs>" ++ orD d.affectedDocs "Not specified" ++ "</affected_docs>",
   "\n    </impact_analysis>\n    <migration>\n      ",
   "<migration_strategy>" ++ orD d.migrationStrategy "Not specified" ++ "</migration_strategy>",
   "\n      ",
   "<rollback_plan>" ++ orD d.rollbackPlan "Not specified" ++ "</rollback_plan>",
   "\n      ",
   "<data_transformation>" ++ orD d.dataTransformation "None" ++ "</data_transformation>",
   "\n      ",
   "<feature_flag_strategy>" ++ orD d.featureFlagStrategy "None" ++ "</feature_flag_strategy>",
   "\n      ",
   "<gradual_rollout>" ++ (if d.gradualRollout then "Yes" else "No") ++ "</gradual_rollout>",
   "\n    </migration>\n    <refactoring>\n      ",
   "<refactor_depth level=\"" ++ toString d.refactorDepth ++ "\">" ++ getRefactorLabel d.refactorDepth ++ "</refactor_depth>",
   "\n      ",
   "<dead_code_removal>" ++ (if d.deadCodeRemoval then "Yes" else "No") ++ "</dead_code_removal>",
   "\n      ",
   "<extract_components>" ++ (if d.extractComponents then "Yes" else "No") ++ "</extract_components>",
   "\n      ",
   "<consolidate_duplicates>" ++ (if d.consolidateDuplicates then "Yes" else "No") ++ "</consolidate_duplicates>",
   "\n      ",
   "<improve_naming>" ++ (if d.improveNaming then "Yes" else "No") ++ "</improve_naming>",
   "\n    </refactoring>\n    <compatibility>\n      ",
   "<api_versioning>" ++ orD d.apiVersioning "Not applicable" ++ "</api_versioning>",
   "\n      ",
   "<deprecation_strategy>" ++ orD d.deprecationStrategy "Not specified" ++ "</deprecation_strategy>",
   "\n      ",
   "<legacy_support>" ++ orD d.legacySupport "Not specified" ++ "</legacy_support>",
   "\n      ",
   "<browser_support>" ++ orD d.browserSupport "Current standards" ++ "</browser_support>",
   "\n      ",
   "<mobile_support>" ++ orD d.mobileSupport "Not specified" ++ "</mobile_support>",
   "\n    </compatibility>\n    <testing>\n      ",
   "<regression_test_scope>" ++ orD d.regressionTestScope "Standard" ++ "</regression_test_scope>",
   "\n      ",
   "<integration_tests>" ++ orD d.integrationTests "Not specified" ++ "</integration_tests>",
   "\n      ",
   "<performance_benchmarks>" ++ orD d.performanceBenchmarks "None" ++ "</performance_benchmarks>",
   "\n      ",
   "<snapshot_updates>" ++ (if d.snapshotUpdates then "Yes - update snapshots" else "No") ++ "</snapshot_updates>",
   "\n      ",
   "<manual_test_cases>" ++ orD d.manualTestCases "None" ++ "</manual_test_cases>",
   "\n    </testing>\n    <communication>\n      ",
   "<notify_teams>" ++ orD d.notifyTeams "None" ++ "</notify_teams>",
   "\n      ",
   "<documentation_updates>" ++ orD d.documentationUpdates "As needed" ++ "</documentation_updates>",
   "\n      ",
   "<changelog_entry>" ++ orD d.changelogEntry "Auto-generate" ++ "</changelog_entry>",
   "\n      ",
   "<release_notes>" ++ orD d.releaseNotes "Not specified" ++ "</release_notes>",
   "\n      ",
   "<user_communication>" ++ orD d.userCommunication "None" ++ "</user_communication>",
   "\n    </communication>\n  </advanced_config>\n</task_card>"]

/-- `generateXML` of the FeatureChange page: the filled-in task card template. -/
def generateXML (d : FeatureChangeData) : String :=
  sjoin (chunks d)

/-- The filename computed by `downloadXML` of the FeatureChange page. -/
def downloadFilename (d : FeatureChangeData) : String :=
  sanitizeFilename d.punchcardTitle ++ "_feature_change.xml"

end FeatureChange

namespace Documentation

/-- Form state record of the Documentation page, field for field as in the source interface `DocumentationData`. -/
structure DocumentationData where
  targetCode : String
  documentationType : String
  audience : String
  existingDocs : String
  codebaseContext : String
  styleGuide : String
  detailLevel : Int
  technicalDepth : Int
  examplesLevel : Int
  filesToIgnore : String
  extraInfo : String
  includeOverview : Bool
  includeInstallation : Bool
  includeQuickStart : Bool
  includeApiReference : Bool
  includeExamples : Bool
  markdownFlavor : String
  headingStructure : String
  codeBlockStyle : String
  diagramFormat : String
  tableOfContents : Bool
  paramDescriptions : Bool
  returnTypes : Bool
  throwsDocumentation : Bool
  deprecationNotes : Bool
  sinceVersion : String
  exampleComplexity : Int
  includeEdgeCases : Bool
  includeErrorHandling : Bool
  runableExamples : Bool
  testableExamples : Bool
  typedocConfig : String
  jsdocTags : String
  openApiSpec : Bool
  postmanCollection : Bool
  readmeTemplate : String
  versioningStrategy : String
  changelogIntegration : Bool
  autoGenerateFromTypes : Bool
  linkToSourceCode : Bool
  lastUpdatedTimestamp : Bool

/-- The `defaultFormData` constant of the Documentation page. -/
def defaultFormData : DocumentationData where
  targetCode := ""
  documentationType := ""
  audience := ""
  existingDocs := ""
  codebaseContext := ""
  styleGuide := ""
  detailLevel := 3
  technicalDepth := 3
  examplesLevel := 3
  filesToIgnore := ""
  extraInfo := ""
  includeOverview := true
  includeInstallation := false
  includeQuickStart := false
  includeApiReference := true
  includeExamples := true
  markdownFlavor := ""
  headingStructure := ""
  codeBlockStyle := ""
  diagramFormat := ""
  tableOfContents := true
  paramDescriptions := true
  returnTypes := true
  throwsDocumentation := true
  deprecationNotes := false
  sinceVersion := ""
  exampleComplexity := 3
  includeEdgeCases := false
  includeErrorHandling := true
  runableExamples := false
  testableExamples := false
  typedocConfig := ""
  jsdocTags := ""
  openApiSpec := false
  postmanCollection := false
  readmeTemplate := ""
  versioningStrategy := ""
  changelogIntegration := false
  autoGenerateFromTypes := false
  linkToSourceCode := true
  lastUpdatedTimestamp := false

/-- Label lookup `getDetailLabel` of the Documentation page: `labels[val - 1]` on a fixed 5-entry list. -/
def getDetailLabel (val : Int) : String :=
  jsGet ["Minimal - brief descriptions", "Concise", "Standard", "Detailed", "Comprehensive - exhaustive detail"] (val - 1)

/-- Label lookup `getTechDepthLabel` of the Documentation page: `labels[val - 1]` on a fixed 5-entry list. -/
def getTechDepthLabel (val : Int) : String :=
  jsGet ["Beginner - no jargon", "Basic", "Intermediate", "Advanced", "Expert - assume deep knowledge"] (val - 1)

/-- Label lookup `getExamplesLabel` of the Documentation page: `labels[val - 1]` on a fixed 5-entry list. -/
def getExamplesLabel (val : Int) : String :=
  jsGet ["None", "Minimal - one basic example", "Some examples", "Many examples", "Extensive - cover all cases"] (val - 1)

/-- Label lookup `getComplexityLabel` of the Documentation page: `labels[val - 1]` on a fixed 5-entry list. -/
def getComplexityLabel (val : Int) : String :=
  jsGet ["Trivial - hello world", "Simple", "Moderate", "Complex", "Real-world production examples"] (val - 1)

/-- The template literal of `generateXML` of the Documentation page, split into chunks at each interpolation site; `sjoin chunks` is byte for byte the template string. -/
def chunks (d : DocumentationData) : List String :=
  ["<task_card type=\"documentation\">\n  <meta_instruction>\n    Follow this documentation workflow:\n",
   "    0. CONTEXT STUDY: Review the target code thoroughly. Understand its purpose, inputs, outputs, and edge cases.\n",
   "    1. OUTLINE: Create a documentation structure outline based on the documentation type requested.\n",
   "    2. DRAFT: Write the documentation following the style guide and detail level specified.\n",
   "    3. EXAMPLES: Add code examples that demonstrate usage patterns.\n",
   "    4. REVIEW: Check for accuracy, completeness, and clarity.\n",
   "    5. FORMAT: Apply proper formatting, links, and cross-references.\n  </meta_instruction>\n\n",
   "  <documentation_details>\n    ",
   "<target_code>" ++ d.targetCode ++ "</target_code>",
   "\n    ",
   "<documentation_type>" ++ d.documentationType ++ "</documentation_type>",
   "\n    ",
   "<target_audience>" ++ d.audience ++ "</target_audience>",
   "\n    ",
   "<existing_docs>" ++ orD d.existingDocs "None" ++ "</existing_docs>",
   "\n    ",
   "<codebase_context>" ++ orD d.codebaseContext "Not specified" ++ "</codebase_context>",
   "\n    ",
   "<style_guide>" ++ orD d.styleGuide "Use standard conventions" ++ "</style_guide>",
   "\n  </documentation_details>\n\n  <preferences>\n    ",
   "<detail_level level=\"" ++ toString d.detailLevel ++ "\">" ++ getDetailLabel d.detailLevel ++ "</detail_level>",
   "\n    ",
   "<technical_depth level=\"" ++ toString d.technicalDepth ++ "\">" ++ getTechDepthLabel d.technicalDepth ++ "</technical_depth>",
   "\n    ",
   "<examples_level level=\"" ++ toString d.examplesLevel ++ "\">" ++ getExamplesLabel d.examplesLevel ++ "</examples_level>",
   "\n    ",
   "<files_to_ignore>" ++ orD d.filesToIgnore "None" ++ "</files_to_ignore>",
   "\n    ",
   "<extra_info>" ++ orD d.extraInfo "None" ++ "</extra_info>",
   "\n  </preferences>\n\n  <advanced_config>\n    <content_sections>\n      ",
   "<include_overview>" ++ (if d.includeOverview then "Yes" else "No") ++ "</include_overview>",
   "\n      ",
   "<include_installation>" ++ (if d.includeInstallation then "Yes" else "No") ++ "</include_installation>",
   "\n      ",
   "<include_quick_start>" ++ (if d.includeQuickStart then "Yes" else "No") ++ "</include_quick_start>",
   "\n      ",
   "<include_api_reference>" ++ (if d.includeApiReference then "Yes" else "No") ++ "</include_api_reference>",
   "\n      ",
   "<include_examples>" ++ (if d.includeExamples then "Yes" else "No") ++ "</include_examples>",
   "\n    </content_sections>\n    <formatting>\n      ",
   "<markdown_flavor>" ++ orD d.markdownFlavor "GitHub Flavored" ++ "</markdown_flavor>",
   "\n      ",
   "<heading_structure>" ++ orD d.headingStructure "Standard H1-H6" ++ "</heading_structure>",
   "\n      ",
   "<code_block_style>" ++ orD d.codeBlockStyle "Fenced with language" ++ "</code_block_style>",
   "\n      ",
   "<diagram_format>" ++ orD d.diagramFormat "Mermaid" ++ "</diagram_format>",
   "\n      ",
   "<table_of_contents>" ++ (if d.tableOfContents then "Yes" else "No") ++ "</table_of_contents>",
   "\n    </formatting>\n    <api_documentation>\n      ",
   "<param_descriptions>" ++ (if d.paramDescriptions then "Yes" else "No") ++ "</param_descriptions>",
   "\n      ",
   "<return_types>" ++ (if d.returnTypes then "Yes" else "No") ++ "</return_types>",
   "\n      ",
   "<throws_documentation>" ++ (if d.throwsDocumentation then "Yes" else "No") ++ "</throws_documentation>",
   "\n      ",
   "<deprecation_notes>" ++ (if d.deprecationNotes then "Yes" else "No") ++ "</deprecation_notes>",
   "\n      ",
   "<since_version>" ++ orD d.sinceVersion "Not tracked" ++ "</since_version>",
   "\n    </api_documentation>\n    <examples_config>\n      ",
   "<example_complexity level=\"" ++ toString d.exampleComplexity ++ "\">" ++ getComplexityLabel d.exampleComplexity ++ "</example_complexity>",
   "\n      ",
   "<include_edge_cases>" ++ (if d.includeEdgeCases then "Yes" else "No") ++ "</include_edge_cases>",
   "\n      ",
   "<include_error_handling>" ++ (if d.includeErrorHandling then "Yes" else "No") ++ "</include_error_handling>",
   "\n      ",
   "<runable_examples>" ++ (if d.runableExamples then "Yes" else "No") ++ "</runable_examples>",
   "\n      ",
   "<testable_examples>" ++ (if d.testableExamples then "Yes" else "No") ++ "</testable_examples>",
   "\n    </examples_config>\n    <integration>\n      ",
   "<typedoc_config>" ++ orD d.typedocConfig "Not using" ++ "</typedoc_config>",
   "\n      ",
   "<jsdoc_tags>" ++ orD d.jsdocTags "Standard tags" ++ "</jsdoc_tags>",
   "\n      ",
   "<openapi_spec>" ++ (if d.openApiSpec then "Yes" else "No") ++ "</openapi_spec>",
   "\n      ",
   "<postman_collection>" ++ (if d.postmanCollection then "Yes" else "No") ++ "</postman_collection>",
   "\n      ",
   "<readme_template>" ++ orD d.readmeTemplate "None" ++ "</readme_template>",
   "\n    </integration>\n    <maintenance>\n      ",
   "<versioning_strategy>" ++ orD d.versioningStrategy "None" ++ "</versioning_strategy>",
   "\n      ",
   "<changelog_integration>" ++ (if d.changelogIntegration then "Yes" else "No") ++ "</changelog_integration>",
   "\n      ",
   "<auto_generate_from_types>" ++ (if d.autoGenerateFromTypes then "Yes" else "No") ++ "</auto_generate_from_types>",
   "\n      ",
   "<link_to_source_code>" ++ (if d.linkToSourceCode then "Yes" else "No") ++ "</link_to_source_code>",
   "\n      ",
   "<last_updated_timestamp>" ++ (if d.lastUpdatedTimestamp then "Yes" else "No") ++ "</last_updated_timestamp>",
   "\n    </maintenance>\n  </advanced_config>\n</task_card>"]

/-- `generateXML` of the Documentation page: the filled-in task card template. -/
def generateXML (d : DocumentationData) : String :=
  sjoin (chunks d)

/-- The filename used by `downloadXML` of the Documentation page: the fixed
literal `documentation_task.xml`, independent of the form values. -/
def downloadFilename (_d : DocumentationData) : String :=
  "documentation_task.xml"

end Documentation

namespace Testing

/-- Form state record of the Testing page, field for field as in the source interface `TestingData`. -/
structure TestingData where
  punchcardTitle : String
  documentationDepth : Int
  targetCode : String
  testingGoal : String
  testTypes : String
  existingTests : String
  testingFramework : String
  codebaseContext : String
  coverage : Int
  thoroughness : Int
  mockingLevel : Int
  filesToIgnore : String
  extraInfo : String
  unitTestStyle : String
  assertionLibrary : String
  describeBlockStructure : Bool
  testNaming : String
  arrangeActAssert : Bool
  integrationScope : String
  databaseStrategy : String
  apiMocking : String
  serviceIsolation : Bool
  transactionRollback : Bool
  e2eFramework : String
  browserTargets : String
  headlessMode : Bool
  screenshotOnFailure : Bool
  videoRecording : Bool
  mockingFramework : String
  mockDepth : Int
  spyFunctions : Bool
  stubExternalCalls : Bool
  mockTimers : Bool
  coverageThreshold : String
  branchCoverage : Bool
  lineCoverage : Bool
  functionCoverage : Bool
  excludeFromCoverage : String
  parallelTests : Bool
  retryFlaky : Bool
  testTimeout : String
  reportFormat : String
  failFast : Bool

/-- The `defaultFormData` constant of the Testing page. -/
def defaultFormData : TestingData where
  punchcardTitle := ""
  documentationDepth := 3
  targetCode := ""
  testingGoal := ""
  testTypes := ""
  existingTests := ""
  testingFramework := ""
  codebaseContext := ""
  coverage := 3
  thoroughness := 3
  mockingLevel := 3
  filesToIgnore := ""
  extraInfo := ""
  unitTestStyle := ""
  assertionLibrary := ""
  describeBlockStructure := true
  testNaming := ""
  arrangeActAssert := true
  integrationScope := ""
  databaseStrategy := ""
  apiMocking := ""
  serviceIsolation := true
  transactionRollback := true
  e2eFramework := ""
  browserTargets := ""
  headlessMode := true
  screenshotOnFailure := true
  videoRecording := false
  mockingFramework := ""
  mockDepth := 3
  spyFunctions := true
  stubExternalCalls := true
  mockTimers := false
  coverageThreshold := ""
  branchCoverage := true
  lineCoverage := true
  functionCoverage := true
  excludeFromCoverage := ""
  parallelTests := false
  retryFlaky := false
  testTimeout := ""
  reportFormat := ""
  failFast := false

/-- Label lookup `getCoverageLabel` of the Testing page: `labels[val - 1]` on a fixed 5-entry list. -/
def getCoverageLabel (val : Int) : String :=
  jsGet ["Minimal - key paths only", "Basic - happy paths", "Standard - most cases", "High - edge cases included", "Comprehensive - 90%+ coverage"] (val - 1)

/-- Label lookup `getThoroughnessLabel` of the Testing page: `labels[val - 1]` on a fixed 5-entry list. -/
def getThoroughnessLabel (val : Int) : String :=
  jsGet ["Quick smoke tests", "Basic validation", "Standard testing", "Thorough testing", "Exhaustive - all scenarios"] (val - 1)

/-- Label lookup `getMockingLabel` of the Testing page: `labels[val - 1]` on a fixed 5-entry list. -/
def getMockingLabel (val : Int) : String :=
  jsGet ["No mocking - real dependencies", "Minimal mocking", "Standard mocking", "Heavy mocking", "Full isolation - mock everything"] (val - 1)

/-- Label lookup `getMockDepthLabel` of the Testing page: `labels[val - 1]` on a fixed 5-entry list. -/
def getMockDepthLabel (val : Int) : String :=
  jsGet ["Shallow - direct deps only", "Basic", "Standard", "Deep", "Complete - all layers"] (val - 1)

/-- Label lookup `getDocDepthLabel` of the Testing page: `labels[val - 1]` on a fixed 5-entry list. -/
def getDocDepthLabel (val : Int) : String :=
  jsGet ["Minimal - snappy dot points", "Brief - key points only", "Standard - balanced detail", "Detailed - thorough coverage", "Deep - comprehensive documentation"] (val - 1)

/-- The template literal of `generateXML` of the Testing page, split into chunks at each interpolation site; `sjoin chunks` is byte for byte the template string. -/
def chunks (d : TestingData) : List String :=
  ["<task_card type=\"testing\" title=\"",
   orD d.punchcardTitle "Untitled Testing",
   "\">",
   "\n  <meta_instruction>\n    Follow this testing workflow:\n",
   "    0. ANALYSIS: Understand the code to be tested. Identify functions, classes, edge cases, and dependencies.\n",
   "    1. STRATEGY: Plan the testing approach based on the test types requested.\n",
   "    2. SETUP: Configure test environment, mocks, and fixtures as needed.\n",
   "    3. WRITE TESTS: Create tests following the specified patterns and conventions.\n",
   "    4. VERIFY: Ensure tests pass and provide meaningful coverage.\n",
   "    5. DOCUMENT: Add clear test descriptions and comments where helpful.\n  </meta_instruction>\n\n",
   "  <documentation_requirement>\n",
   "    <instruction>After completing this task, create a markdown file documenting the work done.</instruction>\n",
   "    ",
   "<output_path>punchcards/" ++ sanitizeFilename d.punchcardTitle ++ ".md</output_path>",
   "\n    ",
   "<detail_level level=\"" ++ toString d.documentationDepth ++ "\">" ++ getDocDepthLabel d.documentationDepth ++ "</detail_level>",
   "\n    <format>\n      Level 1: Task title, one-line summary, files changed (bullet list)\n",
   "      Level 2: Above + brief problem/solution description\n",
   "      Level 3: Above + key decisions made, testing notes\n",
   "      Level 4: Above + detailed reasoning, edge cases considered, related issues\n",
   "      Level 5: Above + full context, alternative approaches considered, future considerations\n    </format>\n",
   "  </documentation_requirement>\n\n  <testing_details>\n    ",
   "<target_code>" ++ d.targetCode ++ "</target_code>",
   "\n    ",
   "<testing_goal>" ++ d.testingGoal ++ "</testing_goal>",
   "\n    ",
   "<test_types>" ++ d.testTypes ++ "</test_types>",
   "\n    ",
   "<existing_tests>" ++ orD d.existingTests "None" ++ "</existing_tests>",
   "\n    ",
   "<testing_framework>" ++ orD d.testingFramework "Auto-detect" ++ "</testing_framework>",
   "\n    ",
   "<codebase_context>" ++ orD d.codebaseContext "Not specified" ++ "</codebase_context>",
   "\n  </testing_details>\n\n  <preferences>\n    ",
   "<coverage_goal level=\"" ++ toString d.coverage ++ "\">" ++ getCoverageLabel d.coverage ++ "</coverage_goal>",
   "\n    ",
   "<thoroughness level=\"" ++ toString d.thoroughness ++ "\">" ++ getThoroughnessLabel d.thoroughness ++ "</thoroughness>",
   "\n    ",
   "<mocking_level level=\"" ++ toString d.mockingLevel ++ "\">" ++ getMockingLabel d.mockingLevel ++ "</mocking_level>",
   "\n    ",
   "<files_to_ignore>" ++ orD d.filesToIgnore "None" ++ "</files_to_ignore>",
   "\n    ",
   "<extra_info>" ++ orD d.extraInfo "None" ++ "</extra_info>",
   "\n  </preferences>\n\n  <advanced_config>\n    <unit_tests>\n      ",
   "<test_style>" ++ orD d.unitTestStyle "BDD style" ++ "</test_style>",
   "\n      ",
   "<assertion_library>" ++ orD d.assertionLibrary "Framework default" ++ "</assertion_library>",
   "\n      ",
   "<describe_block_structure>" ++ (if d.describeBlockStructure then "Yes" else "No") ++ "</describe_block_structure>",
   "\n      ",
   "<test_naming_convention>" ++ orD d.testNaming "should_X_when_Y" ++ "</test_naming_convention>",
   "\n      ",
   "<arrange_act_assert>" ++ (if d.arrangeActAssert then "Yes" else "No") ++ "</arrange_act_assert>",
   "\n    </unit_tests>\n    <integration_tests>\n      ",
   "<scope>" ++ orD d.integrationScope "Not specified" ++ "</scope>",
   "\n      ",
   "<database_strategy>" ++ orD d.databaseStrategy "In-memory/mock" ++ "</database_strategy>",
   "\n      ",
   "<api_mocking>" ++ orD d.apiMocking "Mock external APIs" ++ "</api_mocking>",
   "\n      ",
   "<service_isolation>" ++ (if d.serviceIsolation then "Yes" else "No") ++ "</service_isolation>",
   "\n      ",
   "<transaction_rollback>" ++ (if d.transactionRollback then "Yes" else "No") ++ "</transaction_rollback>",
   "\n    </integration_tests>\n    <e2e_tests>\n      ",
   "<framework>" ++ orD d.e2eFramework "Not specified" ++ "</framework>",
   "\n      ",
   "<browser_targets>" ++ orD d.browserTargets "Chrome" ++ "</browser_targets>",
   "\n      ",
   "<headless_mode>" ++ (if d.headlessMode then "Yes" else "No") ++ "</headless_mode>",
   "\n      ",
   "<screenshot_on_failure>" ++ (if d.screenshotOnFailure then "Yes" else "No") ++ "</screenshot_on_failure>",
   "\n      ",
   "<video_recording>" ++ (if d.videoRecording then "Yes" else "No") ++ "</video_recording>",
   "\n    </e2e_tests>\n    <mocking_config>\n      ",
   "<mocking_framework>" ++ orD d.mockingFramework "Framework default" ++ "</mocking_framework>",
   "\n      ",
   "<mock_depth level=\"" ++ toString d.mockDepth ++ "\">" ++ getMockDepthLabel d.mockDepth ++ "</mock_depth>",
   "\n      ",
   "<spy_functions>" ++ (if d.spyFunctions then "Yes" else "No") ++ "</spy_functions>",
   "\n      ",
   "<stub_external_calls>" ++ (if d.stubExternalCalls then "Yes" else "No") ++ "</stub_external_calls>",
   "\n      ",
   "<mock_timers>" ++ (if d.mockTimers then "Yes" else "No") ++ "</mock_timers>",
   "\n    </mocking_config>\n    <coverage_config>\n      ",
   "<coverage_threshold>" ++ orD d.coverageThreshold "No minimum" ++ "</coverage_threshold>",
   "\n      ",
   "<branch_coverage>" ++ (if d.branchCoverage then "Yes" else "No") ++ "</branch_coverage>",
   "\n      ",
   "<line_coverage>" ++ (if d.lineCoverage then "Yes" else "No") ++ "</line_coverage>",
   "\n      ",
   "<function_coverage>" ++ (if d.functionCoverage then "Yes" else "No") ++ "</function_coverage>",
   "\n      ",
   "<exclude_from_coverage>" ++ orD d.excludeFromCoverage "None" ++ "</exclude_from_coverage>",
   "\n    </coverage_config>\n    <ci_cd_config>\n      ",
   "<parallel_tests>" ++ (if d.parallelTests then "Yes" else "No") ++ "</parallel_tests>",
   "\n      ",
   "<retry_flaky_tests>" ++ (if d.retryFlaky then "Yes" else "No") ++ "</retry_flaky_tests>",
   "\n      ",
   "<test_timeout>" ++ orD d.testTimeout "Framework default" ++ "</test_timeout>",
   "\n      ",
   "<report_format>" ++ orD d.reportFormat "Console + HTML" ++ "</report_format>",
   "\n      ",
   "<fail_fast>" ++ (if d.failFast then "Yes" else "No") ++ "</fail_fast>",
   "\n    </ci_cd_config>\n  </advanced_config>\n</task_card>"]

/-- `generateXML` of the Testing page: the filled-in task card template. -/
def generateXML (d : TestingData) : String :=
  sjoin (chunks d)

/-- The filename computed by `downloadXML` of the Testing page. -/
def downloadFilename (d : TestingData) : String :=
  sanitizeFilename d.punchcardTitle ++ "_testing.xml"

end Testing

namespace SecurityAudit

/-- Form state record of the SecurityAudit page, field for field as in the source interface `SecurityAuditData`. -/
structure SecurityAuditData where
  punchcardTitle : String
  documentationDepth : Int
  targetCode : String
  auditScope : String
  securityConcerns : String
  appType : String
  sensitiveData : String
  existingMeasures : String
  severity : Int
  thoroughness : Int
  complianceLevel : Int
  filesToIgnore : String
  extraInfo : String
  checkInjection : Bool
  checkXss : Bool
  checkCsrf : Bool
  checkAuth : Bool
  checkCrypto : Bool
  checkDataExposure : Bool
  checkSensitiveLogging : Bool
  checkEncryption : Bool
  checkPii : Bool
  checkSecretManagement : Bool
  checkRbac : Bool
  checkPrivilegeEscalation : Bool
  checkSessionManagement : Bool
  checkApiSecurity : Bool
  checkInputValidation : Bool
  checkDependencies : Bool
  checkConfig : Bool
  checkHeaders : Bool
  checkCors : Bool
  checkTls : Bool
  owaspTop10 : Bool
  sansTop25 : Bool
  gdprCompliance : Bool
  hipaaCompliance : Bool
  pciDss : Bool
  reportFormat : String
  includeCwe : Bool
  includeCvss : Bool
  includeRemediation : Bool
  prioritizeBySeverity : Bool

/-- The `defaultFormData` constant of the SecurityAudit page. -/
def defaultFormData : SecurityAuditData where
  punchcardTitle := ""
  documentationDepth := 3
  targetCode := ""
  auditScope := ""
  securityConcerns := ""
  appType := ""
  sensitiveData := ""
  existingMeasures := ""
  severity := 3
  thoroughness := 3
  complianceLevel := 3
  filesToIgnore := ""
  extraInfo := ""
  checkInjection := true
  checkXss := true
  checkCsrf := true
  checkAuth := true
  checkCrypto := true
  checkDataExposure := true
  checkSensitiveLogging := true
  checkEncryption := true
  checkPii := true
  checkSecretManagement := true
  checkRbac := true
  checkPrivilegeEscalation := true
  checkSessionManagement := true
  checkApiSecurity := true
  checkInputValidation := true
  checkDependencies := true
  checkConfig := true
  checkHeaders := true
  checkCors := true
  checkTls := true
  owaspTop10 := true
  sansTop25 := false
  gdprCompliance := false
  hipaaCompliance := false
  pciDss := false
  reportFormat := ""
  includeCwe := true
  includeCvss := false
  includeRemediation := true
  prioritizeBySeverity := true

/-- Label lookup `getSeverityLabel` of the SecurityAudit page: `labels[val - 1]` on a fixed 5-entry list. -/
def getSeverityLabel (val : Int) : String :=
  jsGet ["Critical only", "Critical + High", "Medium and above", "Low and above", "All including informational"] (val - 1)

/-- Label lookup `getThoroughnessLabel` of the SecurityAudit page: `labels[val - 1]` on a fixed 5-entry list. -/
def getThoroughnessLabel (val : Int) : String :=
  jsGet ["Quick scan - obvious issues", "Basic review", "Standard audit", "Deep analysis", "Exhaustive - pentester level"] (val - 1)

/-- Label lookup `getComplianceLabel` of the SecurityAudit page: `labels[val - 1]` on a fixed 5-entry list. -/
def getComplianceLabel (val : Int) : String :=
  jsGet ["No compliance needed", "Basic standards", "Industry standards", "Strict compliance", "Regulatory audit ready"] (val - 1)

/-- Label lookup `getDocDepthLabel` of the SecurityAudit page: `labels[val - 1]` on a fixed 5-entry list. -/
def getDocDepthLabel (val : Int) : String :=
  jsGet ["Minimal - snappy dot points", "Brief - key points only", "Standard - balanced detail", "Detailed - thorough coverage", "Deep - comprehensive documentation"] (val - 1)

/-- The template literal of `generateXML` of the SecurityAudit page, split into chunks at each interpolation site; `sjoin chunks` is byte for byte the template string. -/
def chunks (d : SecurityAuditData) : List String :=
  ["<task_card type=\"security_audit\" title=\"",
   orD d.punchcardTitle "Untitled Security Audit",
   "\">",
   "\n  <meta_instruction>\n    Follow this security audit workflow:\n",
   "    0. RECONNAISSANCE: Map the codebase structure, entry points, and data flows.\n",
   "    1. THREAT MODEL: Identify potential threat vectors based on app type and data handled.\n",
   "    2. STATIC ANALYSIS: Review code for security vulnerabilities and anti-patterns.\n",
   "    3. CONFIGURATION REVIEW: Check security configurations, headers, and settings.\n",
   "    4. DEPENDENCY CHECK: Audit third-party dependencies for known vulnerabilities.\n",
   "    5. REPORT: Document findings with severity, CWE references, and remediation steps.\n  </meta_instruction>\n\n",
   "  <documentation_requirement>\n",
   "    <instruction>After completing this task, create a markdown file documenting the work done.</instruction>\n",
   "    ",
   "<output_path>punchcards/" ++ sanitizeFilename d.punchcardTitle ++ ".md</output_path>",
   "\n    ",
   "<detail_level level=\"" ++ toString d.documentationDepth ++ "\">" ++ getDocDepthLabel d.documentationDepth ++ "</detail_level>",
   "\n    <format>\n      Level 1: Task title, one-line summary, files changed (bullet list)\n",
   "      Level 2: Above + brief problem/solution description\n",
   "      Level 3: Above + key decisions made, testing notes\n",
   "      Level 4: Above + detailed reasoning, edge cases considered, related issues\n",
   "      Level 5: Above + full context, alternative approaches considered, future considerations\n    </format>\n",
   "  </documentation_requirement>\n\n  <audit_details>\n    ",
   "<target_code>" ++ d.targetCode ++ "</target_code>",
   "\n    ",
   "<audit_scope>" ++ d.auditScope ++ "</audit_scope>",
   "\n    ",
   "<security_concerns>" ++ orD d.securityConcerns "General security review" ++ "</security_concerns>",
   "\n    ",
   "<application_type>" ++ orD d.appType "Not specified" ++ "</application_type>",
   "\n    ",
   "<sensitive_data_handled>" ++ orD d.sensitiveData "Not specified" ++ "</sensitive_data_handled>",
   "\n    ",
   "<existing_security_measures>" ++ orD d.existingMeasures "None documented" ++ "</existing_security_measures>",
   "\n  </audit_details>\n\n  <preferences>\n    ",
   "<minimum_severity level=\"" ++ toString d.severity ++ "\">" ++ getSeverityLabel d.severity ++ "</minimum_severity>",
   "\n    ",
   "<thoroughness level=\"" ++ toString d.thoroughness ++ "\">" ++ getThoroughnessLabel d.thoroughness ++ "</thoroughness>",
   "\n    ",
   "<compliance_level level=\"" ++ toString d.complianceLevel ++ "\">" ++ getComplianceLabel d.complianceLevel ++ "</compliance_level>",
   "\n    ",
   "<files_to_ignore>" ++ orD d.filesToIgnore "None" ++ "</files_to_ignore>",
   "\n    ",
   "<extra_info>" ++ orD d.extraInfo "None" ++ "</extra_info>",
   "\n  </preferences>\n\n  <advanced_config>\n    <vulnerability_checks>\n      ",
   "<injection_attacks>" ++ (if d.checkInjection then "Check" else "Skip") ++ "</injection_attacks>",
   "\n      ",
   "<xss_vulnerabilities>" ++ (if d.checkXss then "Check" else "Skip") ++ "</xss_vulnerabilities>",
   "\n      ",
   "<csrf_protection>" ++ (if d.checkCsrf then "Check" else "Skip") ++ "</csrf_protection>",
   "\n      ",
   "<authentication_issues>" ++ (if d.checkAuth then "Check" else "Skip") ++ "</authentication_issues>",
   "\n      ",
   "<cryptographic_failures>" ++ (if d.checkCrypto then "Check" else "Skip") ++ "</cryptographic_failures>",
   "\n    </vulnerability_checks>\n    <data_security>\n      ",
   "<sensitive_data_exposure>" ++ (if d.checkDataExposure then "Check" else "Skip") ++ "</sensitive_data_exposure>",
   "\n      ",
   "<sensitive_logging>" ++ (if d.checkSensitiveLogging then "Check" else "Skip") ++ "</sensitive_logging>",
   "\n      ",
   "<encryption_at_rest_transit>" ++ (if d.checkEncryption then "Check" else "Skip") ++ "</encryption_at_rest_transit>",
   "\n      ",
   "<pii_handling>" ++ (if d.checkPii then "Check" else "Skip") ++ "</pii_handling>",
   "\n      ",
   "<secret_management>" ++ (if d.checkSecretManagement then "Check" else "Skip") ++ "</secret_management>",
   "\n    </data_security>\n    <access_control>\n      ",
   "<rbac_implementation>" ++ (if d.checkRbac then "Check" else "Skip") ++ "</rbac_implementation>",
   "\n      ",
   "<privilege_escalation>" ++ (if d.checkPrivilegeEscalation then "Check" else "Skip") ++ "</privilege_escalation>",
   "\n      ",
   "<session_management>" ++ (if d.checkSessionManagement then "Check" else "Skip") ++ "</session_management>",
   "\n      ",
   "<api_security>" ++ (if d.checkApiSecurity then "Check" else "Skip") ++ "</api_security>",
   "\n      ",
   "<input_validation>" ++ (if d.checkInputValidation then "Check" else "Skip") ++ "</input_validation>",
   "\n    </access_control>\n    <infrastructure>\n      ",
   "<dependency_vulnerabilities>" ++ (if d.checkDependencies then "Check" else "Skip") ++ "</dependency_vulnerabilities>",
   "\n      ",
   "<security_configuration>" ++ (if d.checkConfig then "Check" else "Skip") ++ "</security_configuration>",
   "\n      ",
   "<security_headers>" ++ (if d.checkHeaders then "Check" else "Skip") ++ "</security_headers>",
   "\n      ",
   "<cors_policy>" ++ (if d.checkCors then "Check" else "Skip") ++ "</cors_policy>",
   "\n      ",
   "<tls_configuration>" ++ (if d.checkTls then "Check" else "Skip") ++ "</tls_configuration>",
   "\n    </infrastructure>\n    <compliance_frameworks>\n      ",
   "<owasp_top_10>" ++ (if d.owaspTop10 then "Apply" else "Skip") ++ "</owasp_top_10>",
   "\n      ",
   "<sans_top_25>" ++ (if d.sansTop25 then "Apply" else "Skip") ++ "</sans_top_25>",
   "\n      ",
   "<gdpr_compliance>" ++ (if d.gdprCompliance then "Apply" else "Skip") ++ "</gdpr_compliance>",
   "\n      ",
   "<hipaa_compliance>" ++ (if d.hipaaCompliance then "Apply" else "Skip") ++ "</hipaa_compliance>",
   "\n      ",
   "<pci_dss>" ++ (if d.pciDss then "Apply" else "Skip") ++ "</pci_dss>",
   "\n    </compliance_frameworks>\n    <output_config>\n      ",
   "<report_format>" ++ orD d.reportFormat "Markdown with sections" ++ "</report_format>",
   "\n      ",
   "<include_cwe_references>" ++ (if d.includeCwe then "Yes" else "No") ++ "</include_cwe_references>",
   "\n      ",
   "<include_cvss_scores>" ++ (if d.includeCvss then "Yes" else "No") ++ "</include_cvss_scores>",
   "\n      ",
   "<include_remediation_steps>" ++ (if d.includeRemediation then "Yes" else "No") ++ "</include_remediation_steps>",
   "\n      ",
   "<prioritize_by_severity>" ++ (if d.prioritizeBySeverity then "Yes" else "No") ++ "</prioritize_by_severity>",
   "\n    </output_config>\n  </advanced_config>\n</task_card>"]

/-- `generateXML` of the SecurityAudit page: the filled-in task card template. -/
def generateXML (d : SecurityAuditData) : String :=
  sjoin (chunks d)

/-- The filename computed by `downloadXML` of the SecurityAudit page. -/
def downloadFilename (d : SecurityAuditData) : String :=
  sanitizeFilename d.punchcardTitle ++ "_security_audit.xml"

end SecurityAudit

namespace Cleanup

/-- Form state record of the Cleanup page, field for field as in the source interface `CleanupData`. -/
structure CleanupData where
  targetCode : String
  cleanupGoals : String
  cleanupTypes : String
  codebaseAge : String
  knownIssues : String
  constraints : String
  aggressiveness : Int
  preserveComments : Int
  testingRequired : Int
  filesToIgnore : String
  extraInfo : String
  removeUnusedImports : Bool
  removeUnusedVariables : Bool
  removeUnusedFunctions : Bool
  removeUnreachableCode : Bool
  removeDeprecatedCode : Bool
  consistentIndentation : Bool
  lineEndings : String
  trailingWhitespace : Bool
  maxLineLength : String
  bracesStyle : String
  simplifyConditionals : Bool
  extractMagicNumbers : Bool
  removeNestedTernaries : Bool
  flattenCallbacks : Bool
  consolidateDuplicates : Bool
  removeUnusedDeps : Bool
  updateOutdatedDeps : Bool
  consolidateSimilarDeps : Bool
  removePeerDepWarnings : Bool
  auditVulnerabilities : Bool
  removeCommentedCode : Bool
  updateStaleComments : Bool
  removeObviousComments : Bool
  standardizeTodoFormat : Bool
  documentRemainingTodos : Bool
  removeEmptyFiles : Bool
  consolidateConfigs : Bool
  organizeImports : Bool
  removeBackupFiles : Bool
  standardizeNaming : Bool

/-- The `defaultFormData` constant of the Cleanup page. -/
def defaultFormData : CleanupData where
  targetCode := ""
  cleanupGoals := ""
  cleanupTypes := ""
  codebaseAge := ""
  knownIssues := ""
  constraints := ""
  aggressiveness := 3
  preserveComments := 3
  testingRequired := 3
  filesToIgnore := ""
  extraInfo := ""
  removeUnusedImports := true
  removeUnusedVariables := true
  removeUnusedFunctions := true
  removeUnreachableCode := true
  removeDeprecatedCode := false
  consistentIndentation := true
  lineEndings := ""
  trailingWhitespace := true
  maxLineLength := ""
  bracesStyle := ""
  simplifyConditionals := true
  extractMagicNumbers := false
  removeNestedTernaries := true
  flattenCallbacks := false
  consolidateDuplicates := true
  removeUnusedDeps := true
  updateOutdatedDeps := false
  consolidateSimilarDeps := false
  removePeerDepWarnings := false
  auditVulnerabilities := true
  removeCommentedCode := true
  updateStaleComments := false
  removeObviousComments := false
  standardizeTodoFormat := false
  documentRemainingTodos := false
  removeEmptyFiles := true
  consolidateConfigs := false
  organizeImports := true
  removeBackupFiles := true
  standardizeNaming := false

/-- Label lookup `getAggressivenessLabel` of the Cleanup page: `labels[val - 1]` on a fixed 5-entry list. -/
def getAggressivenessLabel (val : Int) : String :=
  jsGet ["Conservative - obvious issues only", "Light cleanup", "Standard cleanup", "Thorough cleanup", "Aggressive - maximum cleanup"] (val - 1)

/-- Label lookup `getCommentsLabel` of the Cleanup page: `labels[val - 1]` on a fixed 5-entry list. -/
def getCommentsLabel (val : Int) : String :=
  jsGet ["Remove most comments", "Remove stale comments", "Keep useful comments", "Preserve most comments", "Preserve all comments"] (val - 1)

/-- Label lookup `getTestingLabel` of the Cleanup page: `labels[val - 1]` on a fixed 5-entry list. -/
def getTestingLabel (val : Int) : String :=
  jsGet ["No testing needed", "Manual spot check", "Run existing tests", "Full test coverage", "Requires new tests for changes"] (val - 1)

/-- The template literal of `generateXML` of the Cleanup page, split into chunks at each interpolation site; `sjoin chunks` is byte for byte the template string. -/
def chunks (d : CleanupData) : List String :=
  ["<task_card type=\"cleanup\">\n  <meta_instruction>\n    Follow this code cleanup workflow:\n",
   "    0. INVENTORY: Survey the codebase for issues matching the cleanup goals.\n",
   "    1. PRIORITIZE: Identify highest-impact cleanup opportunities.\n",
   "    2. PLAN: Create a cleanup plan that won\x27t break functionality.\n",
   "    3. EXECUTE: Apply cleanups systematically, one category at a time.\n",
   "    4. VERIFY: Ensure no regressions were introduced.\n",
   "    5. DOCUMENT: Note any significant changes or remaining issues.\n  </meta_instruction>\n\n  <cleanup_details>\n",
   "    ",
   "<target_code>" ++ d.targetCode ++ "</target_code>",
   "\n    ",
   "<cleanup_goals>" ++ d.cleanupGoals ++ "</cleanup_goals>",
   "\n    ",
   "<cleanup_types>" ++ d.cleanupTypes ++ "</cleanup_types>",
   "\n    ",
   "<codebase_age>" ++ orD d.codebaseAge "Not specified" ++ "</codebase_age>",
   "\n    ",
   "<known_issues>" ++ orD d.knownIssues "None specified" ++ "</known_issues>",
   "\n    ",
   "<constraints>" ++ orD d.constraints "None" ++ "</constraints>",
   "\n  </cleanup_details>\n\n  <preferences>\n    ",
   "<aggressiveness level=\"" ++ toString d.aggressiveness ++ "\">" ++ getAggressivenessLabel d.aggressiveness ++ "</aggressiveness>",
   "\n    ",
   "<preserve_comments level=\"" ++ toString d.preserveComments ++ "\">" ++ getCommentsLabel d.preserveComments ++ "</preserve_comments>",
   "\n    ",
   "<testing_required level=\"" ++ toString d.testingRequired ++ "\">" ++ getTestingLabel d.testingRequired ++ "</testing_required>",
   "\n    ",
   "<files_to_ignore>" ++ orD d.filesToIgnore "None" ++ "</files_to_ignore>",
   "\n    ",
   "<extra_info>" ++ orD d.extraInfo "None" ++ "</extra_info>",
   "\n  </preferences>\n\n  <advanced_config>\n    <dead_code_removal>\n      ",
   "<remove_unused_imports>" ++ (if d.removeUnusedImports then "Yes" else "No") ++ "</remove_unused_imports>",
   "\n      ",
   "<remove_unused_variables>" ++ (if d.removeUnusedVariables then "Yes" else "No") ++ "</remove_unused_variables>",
   "\n      ",
   "<remove_unused_functions>" ++ (if d.removeUnusedFunctions then "Yes" else "No") ++ "</remove_unused_functions>",
   "\n      ",
   "<remove_unreachable_code>" ++ (if d.removeUnreachableCode then "Yes" else "No") ++ "</remove_unreachable_code>",
   "\n      ",
   "<remove_deprecated_code>" ++ (if d.removeDeprecatedCode then "Yes" else "No") ++ "</remove_deprecated_code>",
   "\n    </dead_code_removal>\n    <formatting>\n      ",
   "<consistent_indentation>" ++ (if d.consistentIndentation then "Yes" else "No") ++ "</consistent_indentation>",
   "\n      ",
   "<line_endings>" ++ orD d.lineEndings "LF (Unix)" ++ "</line_endings>",
   "\n      ",
   "<trailing_whitespace>" ++ (if d.trailingWhitespace then "Remove" else "Keep") ++ "</trailing_whitespace>",
   "\n      ",
   "<max_line_length>" ++ orD d.maxLineLength "No limit" ++ "</max_line_length>",
   "\n      ",
   "<braces_style>" ++ orD d.bracesStyle "Keep existing" ++ "</braces_style>",
   "\n    </formatting>\n    <code_structure>\n      ",
   "<simplify_conditionals>" ++ (if d.simplifyConditionals then "Yes" else "No") ++ "</simplify_conditionals>",
   "\n      ",
   "<extract_magic_numbers>" ++ (if d.extractMagicNumbers then "Yes" else "No") ++ "</extract_magic_numbers>",
   "\n      ",
   "<remove_nested_ternaries>" ++ (if d.removeNestedTernaries then "Yes" else "No") ++ "</remove_nested_ternaries>",
   "\n      ",
   "<flatten_callbacks>" ++ (if d.flattenCallbacks then "Yes" else "No") ++ "</flatten_callbacks>",
   "\n      ",
   "<consolidate_duplicates>" ++ (if d.consolidateDuplicates then "Yes" else "No") ++ "</consolidate_duplicates>",
   "\n    </code_structure>\n    <dependencies>\n      ",
   "<remove_unused_deps>" ++ (if d.removeUnusedDeps then "Yes" else "No") ++ "</remove_unused_deps>",
   "\n      ",
   "<update_outdated_deps>" ++ (if d.updateOutdatedDeps then "Yes" else "No") ++ "</update_outdated_deps>",
   "\n      ",
   "<consolidate_similar_deps>" ++ (if d.consolidateSimilarDeps then "Yes" else "No") ++ "</consolidate_similar_deps>",
   "\n      ",
   "<remove_peer_dep_warnings>" ++ (if d.removePeerDepWarnings then "Yes" else "No") ++ "</remove_peer_dep_warnings>",
   "\n      ",
   "<audit_vulnerabilities>" ++ (if d.auditVulnerabilities then "Yes" else "No") ++ "</audit_vulnerabilities>",
   "\n    </dependencies>\n    <comments_cleanup>\n      ",
   "<remove_commented_code>" ++ (if d.removeCommentedCode then "Yes" else "No") ++ "</remove_commented_code>",
   "\n      ",
   "<update_stale_comments>" ++ (if d.updateStaleComments then "Yes" else "No") ++ "</update_stale_comments>",
   "\n      ",
   "<remove_obvious_comments>" ++ (if d.removeObviousComments then "Yes" else "No") ++ "</remove_obvious_comments>",
   "\n      ",
   "<standardize_todo_format>" ++ (if d.standardizeTodoFormat then "Yes" else "No") ++ "</standardize_todo_format>",
   "\n      ",
   "<document_remaining_todos>" ++ (if d.documentRemainingTodos then "Yes" else "No") ++ "</document_remaining_todos>",
   "\n    </comments_cleanup>\n    <file_organization>\n      ",
   "<remove_empty_files>" ++ (if d.removeEmptyFiles then "Yes" else "No") ++ "</remove_empty_files>",
   "\n      ",
   "<consolidate_configs>" ++ (if d.consolidateConfigs then "Yes" else "No") ++ "</consolidate_configs>",
   "\n      ",
   "<organize_imports>" ++ (if d.organizeImports then "Yes" else "No") ++ "</organize_imports>",
   "\n      ",
   "<remove_backup_files>" ++ (if d.removeBackupFiles then "Yes" else "No") ++ "</remove_backup_files>",
   "\n      ",
   "<standardize_naming>" ++ (if d.standardizeNaming then "Yes" else "No") ++ "</standardize_naming>",
   "\n    </file_organization>\n  </advanced_config>\n</task_card>"]

/-- `generateXML` of the Cleanup page: the filled-in task card template. -/
def generateXML (d : CleanupData) : String :=
  sjoin (chunks d)

end Cleanup

/-- The end-to-end scenario input of the spec: bug_fix defaults with the
three required fields filled in (all rating fields keep their declared
defaults). -/
def c8Input : BugFix.BugFixData :=
  { BugFix.defaultFormData with
      observedBehavior := "X fails"
      expectedBehavior := "X works"
      stepsToReproduce := "1. run X" }

/-- The feature_change form state with the documentation checkbox switched
off (all other fields at their defaults). -/
def fcNoDocInput : FeatureChange.FeatureChangeData :=
  { FeatureChange.defaultFormData with enableDocumentation := false }

/-- On a nonnegative index, `jsGet` is plain list lookup. -/
theorem jsGet_of_nonneg (l : List String) (i : Int) (h : 0 ≤ i) :
    jsGet l i = l.getD i.toNat "undefined" := by
  simp [jsGet, h]

theorem collapseRuns_true_eq (p : Char → Bool) (r : Char) :
    ∀ cs : List Char, collapseRuns p r true cs = collapseRuns p r false (cs.dropWhile p) := by
  intro cs
  induction cs with
  | nil => rfl
  | cons c cs ih =>
    by_cases hc : p c
    · simp [collapseRuns, hc, List.dropWhile, ih]
    · simp [collapseRuns, hc, List.dropWhile]

/-- The scan formulation and the pairwise-lookahead formulation of run
collapsing agree. -/
theorem collapseRuns_eq_spec (p : Char → Bool) (r : Char) :
    ∀ l : List Char, collapseRuns p r false l = collapseRunsSpec p r l := by
  intro l
  induction l with
  | nil => rfl
  | cons c1 cs ih =>
    cases cs with
    | nil =>
      by_cases h1 : p c1 <;> simp [collapseRuns, collapseRunsSpec, h1]
    | cons c2 cs2 =>
      by_cases h1 : p c1
      · by_cases h2 : p c2
        · have lhs : collapseRuns p r false (c1 :: c2 :: cs2) = r :: collapseRuns p r true cs2 := by
            simp [collapseRuns, h1, h2]
          have rhs : collapseRunsSpec p r (c1 :: c2 :: cs2) = collapseRunsSpec p r (c2 :: cs2) := by
            simp [collapseRunsSpec, h1, h2]
          have ih2 : r :: collapseRuns p r true cs2 = collapseRunsSpec p r (c2 :: cs2) := by
            rw [← ih]
            simp [collapseRuns, h2]
          rw [lhs, rhs, ih2]
        · have lhs : collapseRuns p r false (c1 :: c2 :: cs2)
              = r :: c2 :: collapseRuns p r false cs2 := by
            simp [collapseRuns, h1, h2]
          have rhs : collapseRunsSpec p r (c1 :: c2 :: cs2)
              = r :: collapseRunsSpec p r (c2 :: cs2) := by
            simp [collapseRunsSpec, h1, h2]
          have ih2 : collapseRuns p r false (c2 :: cs2) = c2 :: collapseRuns p r false cs2 := by
            simp [collapseRuns, h2]
          rw [lhs, rhs, ← ih, ih2]
      · have lhs : collapseRuns p r false (c1 :: c2 :: cs2)
            = c1 :: collapseRuns p r false (c2 :: cs2) := by
          simp [collapseRuns, h1]
        have rhs : collapseRunsSpec p r (c1 :: c2 :: cs2)
            = c1 :: collapseRunsSpec p r (c2 :: cs2) := by
          simp [collapseRunsSpec, h1]
        rw [lhs, rhs, ih]

theorem csub_self (s : String) : ContainsSub s s :=
  ⟨[], [], by simp⟩

theorem csub_append_left {s m : String} (t : String) (h : ContainsSub s m) :
    ContainsSub (s ++ t) m := by
  obtain ⟨p, q, hpq⟩ := h
  exact ⟨p, q ++ t.data, by rw [String.data_append, ← hpq]; simp⟩

theorem csub_append_right {t m : String} (s : String) (h : ContainsSub t m) :
    ContainsSub (s ++ t) m := by
  obtain ⟨p, q, hpq⟩ := h
  exact ⟨s.data ++ p, q, by rw [String.data_append, ← hpq]; simp⟩

/-- Anything contained in one chunk is contained in the joined string. -/
theorem sub_join_of_mem (c : String) {m : String} {parts : List String}
    (h : ContainsSub c m) (hm : c ∈ parts) : ContainsSub (sjoin parts) m := by
  induction parts with
  | nil => cases hm
  | cons a l ih =>
    rcases List.mem_cons.1 hm with h1 | h2
    · subst h1
      exact csub_append_left _ h
    · exact csub_append_right _ (ih h2)

theorem sappend_assoc (a b c : String) : a ++ b ++ c = a ++ (b ++ c) :=
  String.ext (by simp [String.data_append, List.append_assoc])

/-- An infix of `a ++ b` either lies in `b`, or it lies in `a` extended by
the first `|p|` elements of `b` (the window that covers every occurrence
starting inside `a`). -/
theorem infix_append_take {α : Type} {p a b : List α} (h : p <:+: a ++ b) :
    p <:+: a ++ b.take p.length ∨ p <:+: b := by
  obtain ⟨u, v, huv⟩ := h
  by_cases hu : a.length ≤ u.length
  · right
    have hb : b = u.drop a.length ++ (p ++ v) := by
      have := congrArg (List.drop a.length) huv
      rw [List.drop_append_eq_append_drop, List.drop_append_eq_append_drop] at this
      simp only [List.drop_left, Nat.sub_eq_zero_of_le hu, List.drop_zero] at this
      rw [← this]
      have : a.length - (u.length + p.length) = 0 := by omega
      simp [this]
    exact ⟨u.drop a.length, v, by rw [hb]; simp⟩
  · left
    push_neg at hu
    have hup : u ++ p = (a ++ b).take (u.length + p.length) := by
      rw [← huv]
      rw [show u ++ p ++ v = (u ++ p) ++ v from by simp,
        List.take_append_eq_append_take]
      simp [List.length_append]
    by_cases hlen : u.length + p.length ≤ a.length
    · have ha : u ++ p = a.take (u.length + p.length) := by
        rw [hup, List.take_append_eq_append_take, Nat.sub_eq_zero_of_le hlen]
        simp
      have hpa : p <:+: a := by
        have h1 : p <:+: u ++ p := ⟨u, [], by simp⟩
        rw [ha] at h1
        exact h1.trans (List.take_prefix _ _).isInfix
      obtain ⟨x, y, hxy⟩ := hpa
      exact ⟨x, y ++ (b.take p.length), by rw [← hxy]; simp⟩
    · push_neg at hlen
      have ha : u ++ p = a ++ b.take (u.length + p.length - a.length) := by
        rw [hup, List.take_append_eq_append_take, List.take_of_length_le (by omega)]
      have hpre : a ++ b.take (u.length + p.length - a.length) <+: a ++ b.take p.length := by
        have hsub : b.take (u.length + p.length - a.length) <+: b.take p.length := by
          have e2 : (b.take p.length).take (u.length + p.length - a.length)
              = b.take (u.length + p.length - a.length) := by
            rw [List.take_take, Nat.min_eq_left (by omega)]
          rw [← e2]
          exact List.take_prefix _ _
        obtain ⟨w, hw⟩ := hsub
        exact ⟨w, by rw [← hw]; simp⟩
      have h1 : p <:+: u ++ p := ⟨u, [], by simp⟩
      rw [ha] at h1
      exact h1.trans hpre.isInfix

/-- Step lemma for proving non-containment chunk by chunk: if `p` is not in
the head chunk extended by a `|p|`-sized window into the rest, and not in
the rest, it is not in the whole join. -/
theorem noSub_cons {p : List Char} {c : String} {parts : List String}
    (h1 : ¬ p <:+: (c.data ++ ((sjoin parts).data.take p.length)))
    (h2 : ¬ p <:+: (sjoin parts).data) :
    ¬ p <:+: (sjoin (c :: parts)).data := by
  intro h
  rw [show sjoin (c :: parts) = c ++ sjoin parts from rfl, String.data_append] at h
  rcases infix_append_take h with h3 | h4
  · exact h1 h3
  · exact h2 h4

theorem emitsOpt_mk {α : Type} (parts : α → List String) (g : α → String)
    (opTag clTag fb : String)
    (h : ∀ d, (opTag ++ orD (g d) fb ++ clTag) ∈ parts d) :
    EmitsOpt (fun d => sjoin (parts d)) g opTag clTag fb :=
  fun d => sub_join_of_mem _ (csub_self _) (h d)

theorem emitsRating_mk {α : Type} (parts : α → List String) (g : α → Int)
    (opAttr : String) (labels : List String) (clTag : String)
    (h : ∀ d, (opAttr ++ toString (g d) ++ "\">" ++ jsGet labels (g d - 1) ++ clTag) ∈ parts d) :
    EmitsRating (fun d => sjoin (parts d)) g opAttr labels clTag := by
  intro d h1 _h2
  have e : jsGet labels (g d - 1) = labels.getD (g d - 1).toNat "undefined" :=
    jsGet_of_nonneg _ _ (by omega)
  have hc := sub_join_of_mem _ (csub_self _) (h d)
  rwa [e] at hc

/-- C1: determinism of the XML generation. Each page's `generateXML` is (in
this embedding, as in the source) a pure function of its form record: two
calls on equal inputs yield byte-identical strings, with no dependence on
randomness or time. -/
theorem claim_C1_render_deterministic :
    (∀ d e : BugFix.BugFixData, d = e → BugFix.generateXML d = BugFix.generateXML e)
  ∧ (∀ d e : FeatureRequest.FeatureRequestData, d = e → FeatureRequest.generateXML d = FeatureRequest.generateXML e)
  ∧ (∀ d e : FeatureChange.FeatureChangeData, d = e → FeatureChange.generateXML d = FeatureChange.generateXML e)
  ∧ (∀ d e : Documentation.DocumentationData, d = e → Documentation.generateXML d = Documentation.generateXML e)
  ∧ (∀ d e : Testing.TestingData, d = e → Testing.generateXML d = Testing.generateXML e)
  ∧ (∀ d e : SecurityAudit.SecurityAuditData, d = e → SecurityAudit.generateXML d = SecurityAudit.generateXML e)
  ∧ (∀ d e : Cleanup.CleanupData, d = e → Cleanup.generateXML d = Cleanup.generateXML e) :=
  ⟨fun _ _ h => congrArg _ h, fun _ _ h => congrArg _ h, fun _ _ h => congrArg _ h, fun _ _ h => congrArg _ h, fun _ _ h => congrArg _ h, fun _ _ h => congrArg _ h, fun _ _ h => congrArg _ h⟩

/-- Witness for C1 at concrete inputs: the defaults of each page. -/
theorem claim_C1_render_deterministic_witness :
    BugFix.generateXML BugFix.defaultFormData = BugFix.generateXML BugFix.defaultFormData
  ∧ Cleanup.generateXML Cleanup.defaultFormData = Cleanup.generateXML Cleanup.defaultFormData :=
  ⟨claim_C1_render_deterministic.1 _ _ rfl,
   claim_C1_render_deterministic.2.2.2.2.2.2 _ _ rfl⟩

set_option maxHeartbeats 4000000 in
/-- C2: fallback substitution for every optional text field of every card
type of the current form set. For each element rendered with the `v ||
fallback` idiom, the output contains `<name>fallback</name>` when the field
is the empty string, and `<name>v</name>` with the exact user string
otherwise - the test is strict equality with `""`, so a whitespace-only
string counts as present. -/
theorem claim_C2_fallback_substitution :
    (EmitsOpt BugFix.generateXML (fun d => d.errorMessages) "<error_messages>" "</error_messages>" "N/A")
  ∧ (EmitsOpt BugFix.generateXML (fun d => d.affectedFiles) "<affected_files>" "</affected_files>" "Unknown - please investigate")
  ∧ (EmitsOpt BugFix.generateXML (fun d => d.environment) "<environment>" "</environment>" "Not specified")
  ∧ (EmitsOpt BugFix.generateXML (fun d => d.filesToIgnore) "<files_to_ignore>" "</files_to_ignore>" "None")
  ∧ (EmitsOpt BugFix.generateXML (fun d => d.extraInfo) "<extra_info>" "</extra_info>" "None")
  ∧ (EmitsOpt BugFix.generateXML (fun d => d.codebaseVersion) "<codebase_version>" "</codebase_version>" "Not specified")
  ∧ (EmitsOpt BugFix.generateXML (fun d => d.gitBranch) "<git_branch>" "</git_branch>" "Not specified")
  ∧ (EmitsOpt BugFix.generateXML (fun d => d.lastWorkingCommit) "<last_working_commit>" "</last_working_commit>" "Unknown")
  ∧ (EmitsOpt BugFix.generateXML (fun d => d.relatedIssues) "<related_issues>" "</related_issues>" "None")
  ∧ (EmitsOpt BugFix.generateXML (fun d => d.suspectedRootCause) "<suspected_root_cause>" "</suspected_root_cause>" "Unknown")
  ∧ (EmitsOpt BugFix.generateXML (fun d => d.osVersion) "<os_version>" "</os_version>" "Not specified")
  ∧ (EmitsOpt BugFix.generateXML (fun d => d.nodeVersion) "<node_version>" "</node_version>" "Not specified")
  ∧ (EmitsOpt BugFix.generateXML (fun d => d.browserVersion) "<browser_version>" "</browser_version>" "Not specified")
  ∧ (EmitsOpt BugFix.generateXML (fun d => d.databaseVersion) "<database_version>" "</database_version>" "Not specified")
  ∧ (EmitsOpt BugFix.generateXML (fun d => d.dockerConfig) "<docker_config>" "</docker_config>" "None")
  ∧ (EmitsOpt BugFix.generateXML (fun d => d.frequencyOfBug) "<frequency>" "</frequency>" "Not specified")
  ∧ (EmitsOpt BugFix.generateXML (fun d => d.dataConditions) "<data_conditions>" "</data_conditions>" "Not specified")
  ∧ (EmitsOpt BugFix.generateXML (fun d => d.userPermissions) "<user_permissions>" "</user_permissions>" "Not specified")
  ∧ (EmitsOpt BugFix.generateXML (fun d => d.networkConditions) "<network_conditions>" "</network_conditions>" "Not specified")
  ∧ (EmitsOpt BugFix.generateXML (fun d => d.concurrencyScenario) "<concurrency_scenario>" "</concurrency_scenario>" "None")
  ∧ (EmitsOpt BugFix.generateXML (fun d => d.preferredFixApproach) "<preferred_approach>" "</preferred_approach>" "No preference")
  ∧ (EmitsOpt BugFix.generateXML (fun d => d.avoidPatterns) "<avoid_patterns>" "</avoid_patterns>" "None")
  ∧ (EmitsOpt BugFix.generateXML (fun d => d.performanceConstraints) "<performance_constraints>" "</performance_constraints>" "None")
  ∧ (EmitsOpt BugFix.generateXML (fun d => d.memoryConstraints) "<memory_constraints>" "</memory_constraints>" "None")
  ∧ (EmitsOpt BugFix.generateXML (fun d => d.timeoutRequirements) "<timeout_requirements>" "</timeout_requirements>" "None")
  ∧ (EmitsOpt BugFix.generateXML (fun d => d.existingTestFiles) "<existing_test_files>" "</existing_test_files>" "None specified")
  ∧ (EmitsOpt BugFix.generateXML (fun d => d.testFramework) "<test_framework>" "</test_framework>" "Use project default")
  ∧ (EmitsOpt BugFix.generateXML (fun d => d.mockRequirements) "<mock_requirements>" "</mock_requirements>" "None")
  ∧ (EmitsOpt BugFix.generateXML (fun d => d.coverageTarget) "<coverage_target>" "</coverage_target>" "Not specified")
  ∧ (EmitsOpt BugFix.generateXML (fun d => d.e2eConsiderations) "<e2e_considerations>" "</e2e_considerations>" "None")
  ∧ (EmitsOpt FeatureRequest.generateXML (fun d => d.acceptanceCriteria) "<acceptance_criteria>" "</acceptance_criteria>" "Not specified - use your judgment")
  ∧ (EmitsOpt FeatureRequest.generateXML (fun d => d.constraints) "<constraints>" "</constraints>" "None specified")
  ∧ (EmitsOpt FeatureRequest.generateXML (fun d => d.referenceFiles) "<reference_files>" "</reference_files>" "None specified - explore codebase")
  ∧ (EmitsOpt FeatureRequest.generateXML (fun d => d.techStack) "<tech_stack>" "</tech_stack>" "Follow existing project patterns")
  ∧ (EmitsOpt FeatureRequest.generateXML (fun d => d.stylingGuidelines) "<styling_guidelines>" "</styling_guidelines>" "Follow existing patterns")
  ∧ (EmitsOpt FeatureRequest.generateXML (fun d => d.filesToIgnore) "<files_to_ignore>" "</files_to_ignore>" "None")
  ∧ (EmitsOpt FeatureRequest.generateXML (fun d => d.extraInfo) "<extra_info>" "</extra_info>" "None")
  ∧ (EmitsOpt FeatureRequest.generateXML (fun d => d.designPatterns) "<design_patterns>" "</design_patterns>" "Follow existing")
  ∧ (EmitsOpt FeatureRequest.generateXML (fun d => d.folderStructure) "<folder_structure>" "</folder_structure>" "Follow existing")
  ∧ (EmitsOpt FeatureRequest.generateXML (fun d => d.namingConventions) "<naming_conventions>" "</naming_conventions>" "Follow existing")
  ∧ (EmitsOpt FeatureRequest.generateXML (fun d => d.stateManagement) "<state_management>" "</state_management>" "Follow existing")
  ∧ (EmitsOpt FeatureRequest.generateXML (fun d => d.apiDesign) "<api_design>" "</api_design>" "RESTful default")
  ∧ (EmitsOpt FeatureRequest.generateXML (fun d => d.dataModels) "<data_models>" "</data_models>" "Not specified")
  ∧ (EmitsOpt FeatureRequest.generateXML (fun d => d.databaseSchema) "<database_schema>" "</database_schema>" "Not specified")
  ∧ (EmitsOpt FeatureRequest.generateXML (fun d => d.validationRules) "<validation_rules>" "</validation_rules>" "Standard validation")
  ∧ (EmitsOpt FeatureRequest.generateXML (fun d => d.dataTransformations) "<data_transformations>" "</data_transformations>" "None specified")
  ∧ (EmitsOpt FeatureRequest.generateXML (fun d => d.caching) "<caching_strategy>" "</caching_strategy>" "Default")
  ∧ (EmitsOpt FeatureRequest.generateXML (fun d => d.componentLibrary) "<component_library>" "</component_library>" "Use existing")
  ∧ (EmitsOpt FeatureRequest.generateXML (fun d => d.responsiveBreakpoints) "<responsive_breakpoints>" "</responsive_breakpoints>" "Standard breakpoints")
  ∧ (EmitsOpt FeatureRequest.generateXML (fun d => d.accessibilityLevel) "<accessibility_level>" "</accessibility_level>" "WCAG AA")
  ∧ (EmitsOpt FeatureRequest.generateXML (fun d => d.animationPrefs) "<animation_preferences>" "</animation_preferences>" "Subtle")
  ∧ (EmitsOpt FeatureRequest.generateXML (fun d => d.apiEndpoints) "<api_endpoints>" "</api_endpoints>" "Not specified")
  ∧ (EmitsOpt FeatureRequest.generateXML (fun d => d.authRequirements) "<auth_requirements>" "</auth_requirements>" "Follow existing auth")
  ∧ (EmitsOpt FeatureRequest.generateXML (fun d => d.thirdPartyServices) "<third_party_services>" "</third_party_services>" "None")
  ∧ (EmitsOpt FeatureRequest.generateXML (fun d => d.webhooks) "<webhooks>" "</webhooks>" "None")
  ∧ (EmitsOpt FeatureRequest.generateXML (fun d => d.eventSystem) "<event_system>" "</event_system>" "None")
  ∧ (EmitsOpt FeatureRequest.generateXML (fun d => d.bundleSizeLimit) "<bundle_size_limit>" "</bundle_size_limit>" "No strict limit")
  ∧ (EmitsOpt FeatureRequest.generateXML (fun d => d.renderingStrategy) "<rendering_strategy>" "</rendering_strategy>" "Default")
  ∧ (EmitsOpt FeatureRequest.generateXML (fun d => d.errorHandlingStrategy) "<error_handling_strategy>" "</error_handling_strategy>" "Standard try-catch")
  ∧ (EmitsOpt FeatureRequest.generateXML (fun d => d.monitoringIntegration) "<monitoring_integration>" "</monitoring_integration>" "None")
  ∧ (EmitsOpt FeatureChange.generateXML (fun d => d.affectedAreas) "<affected_areas>" "</affected_areas>" "Unknown - please analyze")
  ∧ (EmitsOpt FeatureChange.generateXML (fun d => d.backwardCompatibility) "<backward_compatibility_notes>" "</backward_compatibility_notes>" "Not specified")
  ∧ (EmitsOpt FeatureChange.generateXML (fun d => d.migrationNotes) "<migration_notes>" "</migration_notes>" "None")
  ∧ (EmitsOpt FeatureChange.generateXML (fun d => d.filesToIgnore) "<files_to_ignore>" "</files_to_ignore>" "None")
  ∧ (EmitsOpt FeatureChange.generateXML (fun d => d.extraInfo) "<extra_info>" "</extra_info>" "None")
  ∧ (EmitsOpt FeatureChange.generateXML (fun d => d.upstreamDependencies) "<upstream_dependencies>" "</upstream_dependencies>" "Not specified")
  ∧ (EmitsOpt FeatureChange.generateXML (fun d => d.downstreamConsumers) "<downstream_consumers>" "</downstream_consumers>" "Not specified")
  ∧ (EmitsOpt FeatureChange.generateXML (fun d => d.sharedUtilities) "<shared_utilities>" "</shared_utilities>" "Not specified")
  ∧ (EmitsOpt FeatureChange.generateXML (fun d => d.affectedTests) "<affected_tests>" "</affected_tests>" "Not specified")
  ∧ (EmitsOpt FeatureChange.generateXML (fun d => d.affectedDocs) "<affected_docs>" "</affected_docs>" "Not specified")
  ∧ (EmitsOpt FeatureChange.generateXML (fun d => d.migrationStrategy) "<migration_strategy>" "</migration_strategy>" "Not specified")
  ∧ (EmitsOpt FeatureChange.generateXML (fun d => d.rollbackPlan) "<rollback_plan>" "</rollback_plan>" "Not specified")
  ∧ (EmitsOpt FeatureChange.generateXML (fun d => d.dataTransformation) "<data_transformation>" "</data_transformation>" "None")
  ∧ (EmitsOpt FeatureChange.generateXML (fun d => d.featureFlagStrategy) "<feature_flag_strategy>" "</feature_flag_strategy>" "None")
  ∧ (EmitsOpt FeatureChange.generateXML (fun d => d.apiVersioning) "<api_versioning>" "</api_versioning>" "Not applicable")
  ∧ (EmitsOpt FeatureChange.generateXML (fun d => d.deprecationStrategy) "<deprecation_strategy>" "</deprecation_strategy>" "Not specified")
  ∧ (EmitsOpt FeatureChange.generateXML (fun d => d.legacySupport) "<legacy_support>" "</legacy_support>" "Not specified")
  ∧ (EmitsOpt FeatureChange.generateXML (fun d => d.browserSupport) "<browser_support>" "</browser_support>" "Current standards")
  ∧ (EmitsOpt FeatureChange.generateXML (fun d => d.mobileSupport) "<mobile_support>" "</mobile_support>" "Not specified")
  ∧ (EmitsOpt FeatureChange.generateXML (fun d => d.regressionTestScope) "<regression_test_scope>" "</regression_test_scope>" "Standard")
  ∧ (EmitsOpt FeatureChange.generateXML (fun d => d.integrationTests) "<integration_tests>" "</integration_tests>" "Not specified")
  ∧ (EmitsOpt FeatureChange.generateXML (fun d => d.performanceBenchmarks) "<performance_benchmarks>" "</performance_benchmarks>" "None")
  ∧ (EmitsOpt FeatureChange.generateXML (fun d => d.manualTestCases) "<manual_test_cases>" "</manual_test_cases>" "None")
  ∧ (EmitsOpt FeatureChange.generateXML (fun d => d.notifyTeams) "<notify_teams>" "</notify_teams>" "None")
  ∧ (EmitsOpt FeatureChange.generateXML (fun d => d.documentationUpdates) "<documentation_updates>" "</documentation_updates>" "As needed")
  ∧ (EmitsOpt FeatureChange.generateXML (fun d => d.changelogEntry) "<changelog_entry>" "</changelog_entry>" "Auto-generate")
  ∧ (EmitsOpt FeatureChange.generateXML (fun d => d.releaseNotes) "<release_notes>" "</release_notes>" "Not specified")
  ∧ (EmitsOpt FeatureChange.generateXML (fun d => d.userCommunication) "<user_communication>" "</user_communication>" "None")
  ∧ (EmitsOpt Documentation.generateXML (fun d => d.existingDocs) "<existing_docs>" "</existing_docs>" "None")
  ∧ (EmitsOpt Documentation.generateXML (fun d => d.codebaseContext) "<codebase_context>" "</codebase_context>" "Not specified")
  ∧ (EmitsOpt Documentation.generateXML (fun d => d.styleGuide) "<style_guide>" "</style_guide>" "Use standard conventions")
  ∧ (EmitsOpt Documentation.generateXML (fun d => d.filesToIgnore) "<files_to_ignore>" "</files_to_ignore>" "None")
  ∧ (EmitsOpt Documentation.generateXML (fun d => d.extraInfo) "<extra_info>" "</extra_info>" "None")
  ∧ (EmitsOpt Documentation.generateXML (fun d => d.markdownFlavor) "<markdown_flavor>" "</markdown_flavor>" "GitHub Flavored")
  ∧ (EmitsOpt Documentation.generateXML (fun d => d.headingStructure) "<heading_structure>" "</heading_structure>" "Standard H1-H6")
  ∧ (EmitsOpt Documentation.generateXML (fun d => d.codeBlockStyle) "<code_block_style>" "</code_block_style>" "Fenced with language")
  ∧ (EmitsOpt Documentation.generateXML (fun d => d.diagramFormat) "<diagram_format>" "</diagram_format>" "Mermaid")
  ∧ (EmitsOpt Documentation.generateXML (fun d => d.sinceVersion) "<since_version>" "</since_version>" "Not tracked")
  ∧ (EmitsOpt Documentation.generateXML (fun d => d.typedocConfig) "<typedoc_config>" "</typedoc_config>" "Not using")
  ∧ (EmitsOpt Documentation.generateXML (fun d => d.jsdocTags) "<jsdoc_tags>" "</jsdoc_tags>" "Standard tags")
  ∧ (EmitsOpt Documentation.generateXML (fun d => d.readmeTemplate) "<readme_template>" "</readme_template>" "None")
  ∧ (EmitsOpt Documentation.generateXML (fun d => d.versioningStrategy) "<versioning_strategy>" "</versioning_strategy>" "None")
  ∧ (EmitsOpt Testing.generateXML (fun d => d.existingTests) "<existing_tests>" "</existing_tests>" "None")
  ∧ (EmitsOpt Testing.generateXML (fun d => d.testingFramework) "<testing_framework>" "</testing_framework>" "Auto-detect")
  ∧ (EmitsOpt Testing.generateXML (fun d => d.codebaseContext) "<codebase_context>" "</codebase_context>" "Not specified")
  ∧ (EmitsOpt Testing.generateXML (fun d => d.filesToIgnore) "<files_to_ignore>" "</files_to_ignore>" "None")
  ∧ (EmitsOpt Testing.generateXML (fun d => d.extraInfo) "<extra_info>" "</extra_info>" "None")
  ∧ (EmitsOpt Testing.generateXML (fun d => d.unitTestStyle) "<test_style>" "</test_style>" "BDD style")
  ∧ (EmitsOpt Testing.generateXML (fun d => d.assertionLibrary) "<assertion_library>" "</assertion_library>" "Framework default")
  ∧ (EmitsOpt Testing.generateXML (fun d => d.testNaming) "<test_naming_convention>" "</test_naming_convention>" "should_X_when_Y")
  ∧ (EmitsOpt Testing.generateXML (fun d => d.integrationScope) "<scope>" "</scope>" "Not specified")
  ∧ (EmitsOpt Testing.generateXML (fun d => d.databaseStrategy) "<database_strategy>" "</database_strategy>" "In-memory/mock")
  ∧ (EmitsOpt Testing.generateXML (fun d => d.apiMocking) "<api_mocking>" "</api_mocking>" "Mock external APIs")
  ∧ (EmitsOpt Testing.generateXML (fun d => d.e2eFramework) "<framework>" "</framework>" "Not specified")
  ∧ (EmitsOpt Testing.generateXML (fun d => d.browserTargets) "<browser_targets>" "</browser_targets>" "Chrome")
  ∧ (EmitsOpt Testing.generateXML (fun d => d.mockingFramework) "<mocking_framework>" "</mocking_framework>" "Framework default")
  ∧ (EmitsOpt Testing.generateXML (fun d => d.coverageThreshold) "<coverage_threshold>" "</coverage_threshold>" "No minimum")
  ∧ (EmitsOpt Testing.generateXML (fun d => d.excludeFromCoverage) "<exclude_from_coverage>" "</exclude_from_coverage>" "None")
  ∧ (EmitsOpt Testing.generateXML (fun d => d.testTimeout) "<test_timeout>" "</test_timeout>" "Framework default")
  ∧ (EmitsOpt Testing.generateXML (fun d => d.reportFormat) "<report_format>" "</report_format>" "Console + HTML")
  ∧ (EmitsOpt SecurityAudit.generateXML (fun d => d.securityConcerns) "<security_concerns>" "</security_concerns>" "General security review")
  ∧ (EmitsOpt SecurityAudit.generateXML (fun d => d.appType) "<application_type>" "</application_type>" "Not specified")
  ∧ (EmitsOpt SecurityAudit.generateXML (fun d => d.sensitiveData) "<sensitive_data_handled>" "</sensitive_data_handled>" "Not specified")
  ∧ (EmitsOpt SecurityAudit.generateXML (fun d => d.existingMeasures) "<existing_security_measures>" "</existing_security_measures>" "None documented")
  ∧ (EmitsOpt SecurityAudit.generateXML (fun d => d.filesToIgnore) "<files_to_ignore>" "</files_to_ignore>" "None")
  ∧ (EmitsOpt SecurityAudit.generateXML (fun d => d.extraInfo) "<extra_info>" "</extra_info>" "None")
  ∧ (EmitsOpt SecurityAudit.generateXML (fun d => d.reportFormat) "<report_format>" "</report_format>" "Markdown with sections")
  ∧ (EmitsOpt Cleanup.generateXML (fun d => d.codebaseAge) "<codebase_age>" "</codebase_age>" "Not specified")
  ∧ (EmitsOpt Cleanup.generateXML (fun d => d.knownIssues) "<known_issues>" "</known_issues>" "None specified")
  ∧ (EmitsOpt Cleanup.generateXML (fun d => d.constraints) "<constraints>" "</constraints>" "None")
  ∧ (EmitsOpt Cleanup.generateXML (fun d => d.filesToIgnore) "<files_to_ignore>" "</files_to_ignore>" "None")
  ∧ (EmitsOpt Cleanup.generateXML (fun d => d.extraInfo) "<extra_info>" "</extra_info>" "None")
  ∧ (EmitsOpt Cleanup.generateXML (fun d => d.lineEndings) "<line_endings>" "</line_endings>" "LF (Unix)")
  ∧ (EmitsOpt Cleanup.generateXML (fun d => d.maxLineLength) "<max_line_length>" "</max_line_length>" "No limit")
  ∧ (EmitsOpt Cleanup.generateXML (fun d => d.bracesStyle) "<braces_style>" "</braces_style>" "Keep existing") :=
  ⟨emitsOpt_mk BugFix.chunks _ _ _ _ (fun d => by simp [BugFix.chunks]),
   emitsOpt_mk BugFix.chunks _ _ _ _ (fun d => by simp [BugFix.chunks]),
   emitsOpt_mk BugFix.chunks _ _ _ _ (fun d => by simp [BugFix.chunks]),
   emitsOpt_mk BugFix.chunks _ _ _ _ (fun d => by simp [BugFix.chunks]),
   emitsOpt_mk BugFix.chunks _ _ _ _ (fun d => by simp [BugFix.chunks]),
   emitsOpt_mk BugFix.chunks _ _ _ _ (fun d => by simp [BugFix.chunks]),
   emitsOpt_mk BugFix.chunks _ _ _ _ (fun d => by simp [BugFix.chunks]),
   emitsOpt_mk BugFix.chunks _ _ _ _ (fun d => by simp [BugFix.chunks]),
   emitsOpt_mk BugFix.chunks _ _ _ _ (fun d => by simp [BugFix.chunks]),
   emitsOpt_mk BugFix.chunks _ _ _ _ (fun d => by simp [BugFix.chunks]),
   emitsOpt_mk BugFix.chunks _ _ _ _ (fun d => by simp [BugFix.chunks]),
   emitsOpt_mk BugFix.chunks _ _ _ _ (fun d => by simp [BugFix.chunks]),
   emitsOpt_mk BugFix.chunks _ _ _ _ (fun d => by simp [BugFix.chunks]),
   emitsOpt_mk BugFix.chunks _ _ _ _ (fun d => by simp [BugFix.chunks]),
   emitsOpt_mk BugFix.chunks _ _ _ _ (fun d => by simp [BugFix.chunks]),
   emitsOpt_mk BugFix.chunks _ _ _ _ (fun d => by simp [BugFix.chunks]),
   emitsOpt_mk BugFix.chunks _ _ _ _ (fun d => by simp [BugFix.chunks]),
   emitsOpt_mk BugFix.chunks _ _ _ _ (fun d => by simp [BugFix.chunks]),
   emitsOpt_mk BugFix.chunks _ _ _ _ (fun d => by simp [BugFix.chunks]),
   emitsOpt_mk BugFix.chunks _ _ _ _ (fun d => by simp [BugFix.chunks]),
   emitsOpt_mk BugFix.chunks _ _ _ _ (fun d => by simp [BugFix.chunks]),
   emitsOpt_mk BugFix.chunks _ _ _ _ (fun d => by simp [BugFix.chunks]),
   emitsOpt_mk BugFix.chunks _ _ _ _ (fun d => by simp [BugFix.chunks]),
   emitsOpt_mk BugFix.chunks _ _ _ _ (fun d => by simp [BugFix.chunks]),
   emitsOpt_mk BugFix.chunks _ _ _ _ (fun d => by simp [BugFix.chunks]),
   emitsOpt_mk BugFix.chunks _ _ _ _ (fun d => by simp [BugFix.chunks]),
   emitsOpt_mk BugFix.chunks _ _ _ _ (fun d => by simp [BugFix.chunks]),
   emitsOpt_mk BugFix.chunks _ _ _ _ (fun d => by simp [BugFix.chunks]),
   emitsOpt_mk BugFix.chunks _ _ _ _ (fun d => by simp [BugFix.chunks]),
   emitsOpt_mk BugFix.chunks _ _ _ _ (fun d => by simp [BugFix.chunks]),
   emitsOpt_mk FeatureRequest.chunks _ _ _ _ (fun d => by simp [FeatureRequest.chunks]),
   emitsOpt_mk FeatureRequest.chunks _ _ _ _ (fun d => by simp [FeatureRequest.chunks]),
   emitsOpt_mk FeatureRequest.chunks _ _ _ _ (fun d => by simp [FeatureRequest.chunks]),
   emitsOpt_mk FeatureRequest.chunks _ _ _ _ (fun d => by simp [FeatureRequest.chunks]),
   emitsOpt_mk FeatureRequest.chunks _ _ _ _ (fun d => by simp [FeatureRequest.chunks]),
   emitsOpt_mk FeatureRequest.chunks _ _ _ _ (fun d => by simp [FeatureRequest.chunks]),
   emitsOpt_mk FeatureRequest.chunks _ _ _ _ (fun d => by simp [FeatureRequest.chunks]),
   emitsOpt_mk FeatureRequest.chunks _ _ _ _ (fun d => by simp [FeatureRequest.chunks]),
   emitsOpt_mk FeatureRequest.chunks _ _ _ _ (fun d => by simp [FeatureRequest.chunks]),
   emitsOpt_mk FeatureRequest.chunks _ _ _ _ (fun d => by simp [FeatureRequest.chunks]),
   emitsOpt_mk FeatureRequest.chunks _ _ _ _ (fun d => by simp [FeatureRequest.chunks]),
   emitsOpt_mk FeatureRequest.chunks _ _ _ _ (fun d => by simp [FeatureRequest.chunks]),
   emitsOpt_mk FeatureRequest.chunks _ _ _ _ (fun d => by simp [FeatureRequest.chunks]),
   emitsOpt_mk FeatureRequest.chunks _ _ _ _ (fun d => by simp [FeatureRequest.chunks]),
   emitsOpt_mk FeatureRequest.chunks _ _ _ _ (fun d => by simp [FeatureRequest.chunks]),
   emitsOpt_mk FeatureRequest.chunks _ _ _ _ (fun d => by simp [FeatureRequest.chunks]),
   emitsOpt_mk FeatureRequest.chunks _ _ _ _ (fun d => by simp [FeatureRequest.chunks]),
   emitsOpt_mk FeatureRequest.chunks _ _ _ _ (fun d => by simp [FeatureRequest.chunks]),
   emitsOpt_mk FeatureRequest.chunks _ _ _ _ (fun d => by simp [FeatureRequest.chunks]),
   emitsOpt_mk FeatureRequest.chunks _ _ _ _ (fun d => by simp [FeatureRequest.chunks]),
   emitsOpt_mk FeatureRequest.chunks _ _ _ _ (fun d => by simp [FeatureRequest.chunks]),
   emitsOpt_mk FeatureRequest.chunks _ _ _ _ (fun d => by simp [FeatureRequest.chunks]),
   emitsOpt_mk FeatureRequest.chunks _ _ _ _ (fun d => by simp [FeatureRequest.chunks]),
   emitsOpt_mk FeatureRequest.chunks _ _ _ _ (fun d => by simp [FeatureRequest.chunks]),
   emitsOpt_mk FeatureRequest.chunks _ _ _ _ (fun d => by simp [FeatureRequest.chunks]),
   emitsOpt_mk FeatureRequest.chunks _ _ _ _ (fun d => by simp [FeatureRequest.chunks]),
   emitsOpt_mk FeatureRequest.chunks _ _ _ _ (fun d => by simp [FeatureRequest.chunks]),
   emitsOpt_mk FeatureRequest.chunks _ _ _ _ (fun d => by simp [FeatureRequest.chunks]),
   emitsOpt_mk FeatureRequest.chunks _ _ _ _ (fun d => by simp [FeatureRequest.chunks]),
   emitsOpt_mk FeatureRequest.chunks _ _ _ _ (fun d => by simp [FeatureRequest.chunks]),
   emitsOpt_mk FeatureChange.chunks _ _ _ _ (fun d => by simp [FeatureChange.chunks]),
   emitsOpt_mk FeatureChange.chunks _ _ _ _ (fun d => by simp [FeatureChange.chunks]),
   emitsOpt_mk FeatureChange.chunks _ _ _ _ (fun d => by simp [FeatureChange.chunks]),
   emitsOpt_mk FeatureChange.chunks _ _ _ _ (fun d => by simp [FeatureChange.chunks]),
   emitsOpt_mk FeatureChange.chunks _ _ _ _ (fun d => by simp [FeatureChange.chunks]),
   emitsOpt_mk FeatureChange.chunks _ _ _ _ (fun d => by simp [FeatureChange.chunks]),
   emitsOpt_mk FeatureChange.chunks _ _ _ _ (fun d => by simp [FeatureChange.chunks]),
   emitsOpt_mk FeatureChange.chunks _ _ _ _ (fun d => by simp [FeatureChange.chunks]),
   emitsOpt_mk FeatureChange.chunks _ _ _ _ (fun d => by simp [FeatureChange.chunks]),
   emitsOpt_mk FeatureChange.chunks _ _ _ _ (fun d => by simp [FeatureChange.chunks]),
   emitsOpt_mk FeatureChange.chunks _ _ _ _ (fun d => by simp [FeatureChange.chunks]),
   emitsOpt_mk FeatureChange.chunks _ _ _ _ (fun d => by simp [FeatureChange.chunks]),
   emitsOpt_mk FeatureChange.chunks _ _ _ _ (fun d => by simp [FeatureChange.chunks]),
   emitsOpt_mk FeatureChange.chunks _ _ _ _ (fun d => by simp [FeatureChange.chunks]),
   emitsOpt_mk FeatureChange.chunks _ _ _ _ (fun d => by simp [FeatureChange.chunks]),
   emitsOpt_mk FeatureChange.chunks _ _ _ _ (fun d => by simp [FeatureChange.chunks]),
   emitsOpt_mk FeatureChange.chunks _ _ _ _ (fun d => by simp [FeatureChange.chunks]),
   emitsOpt_mk FeatureChange.chunks _ _ _ _ (fun d => by simp [FeatureChange.chunks]),
   emitsOpt_mk FeatureChange.chunks _ _ _ _ (fun d => by simp [FeatureChange.chunks]),
   emitsOpt_mk FeatureChange.chunks _ _ _ _ (fun d => by simp [FeatureChange.chunks]),
   emitsOpt_mk FeatureChange.chunks _ _ _ _ (fun d => by simp [FeatureChange.chunks]),
   emitsOpt_mk FeatureChange.chunks _ _ _ _ (fun d => by simp [FeatureChange.chunks]),
   emitsOpt_mk FeatureChange.chunks _ _ _ _ (fun d => by simp [FeatureChange.chunks]),
   emitsOpt_mk FeatureChange.chunks _ _ _ _ (fun d => by simp [FeatureChange.chunks]),
   emitsOpt_mk FeatureChange.chunks _ _ _ _ (fun d => by simp [FeatureChange.chunks]),
   emitsOpt_mk FeatureChange.chunks _ _ _ _ (fun d => by simp [FeatureChange.chunks]),
   emitsOpt_mk FeatureChange.chunks _ _ _ _ (fun d => by simp [FeatureChange.chunks]),
   emitsOpt_mk FeatureChange.chunks _ _ _ _ (fun d => by simp [FeatureChange.chunks]),
   emitsOpt_mk Documentation.chunks _ _ _ _ (fun d => by simp [Documentation.chunks]),
   emitsOpt_mk Documentation.chunks _ _ _ _ (fun d => by simp [Documentation.chunks]),
   emitsOpt_mk Documentation.chunks _ _ _ _ (fun d => by simp [Documentation.chunks]),
   emitsOpt_mk Documentation.chunks _ _ _ _ (fun d => by simp [Documentation.chunks]),
   emitsOpt_mk Documentation.chunks _ _ _ _ (fun d => by simp [Documentation.chunks]),
   emitsOpt_mk Documentation.chunks _ _ _ _ (fun d => by simp [Documentation.chunks]),
   emitsOpt_mk Documentation.chunks _ _ _ _ (fun d => by simp [Documentation.chunks]),
   emitsOpt_mk Documentation.chunks _ _ _ _ (fun d => by simp [Documentation.chunks]),
   emitsOpt_mk Documentation.chunks _ _ _ _ (fun d => by simp [Documentation.chunks]),
   emitsOpt_mk Documentation.chunks _ _ _ _ (fun d => by simp [Documentation.chunks]),
   emitsOpt_mk Documentation.chunks _ _ _ _ (fun d => by simp [Documentation.chunks]),
   emitsOpt_mk Documentation.chunks _ _ _ _ (fun d => by simp [Documentation.chunks]),
   emitsOpt_mk Documentation.chunks _ _ _ _ (fun d => by simp [Documentation.chunks]),
   emitsOpt_mk Documentation.chunks _ _ _ _ (fun d => by simp [Documentation.chunks]),
   emitsOpt_mk Testing.chunks _ _ _ _ (fun d => by simp [Testing.chunks]),
   emitsOpt_mk Testing.chunks _ _ _ _ (fun d => by simp [Testing.chunks]),
   emitsOpt_mk Testing.chunks _ _ _ _ (fun d => by simp [Testing.chunks]),
   emitsOpt_mk Testing.chunks _ _ _ _ (fun d => by simp [Testing.chunks]),
   emitsOpt_mk Testing.chunks _ _ _ _ (fun d => by simp [Testing.chunks]),
   emitsOpt_mk Testing.chunks _ _ _ _ (fun d => by simp [Testing.chunks]),
   emitsOpt_mk Testing.chunks _ _ _ _ (fun d => by simp [Testing.chunks]),
   emitsOpt_mk Testing.chunks _ _ _ _ (fun d => by simp [Testing.chunks]),
   emitsOpt_mk Testing.chunks _ _ _ _ (fun d => by simp [Testing.chunks]),
   emitsOpt_mk Testing.chunks _ _ _ _ (fun d => by simp [Testing.chunks]),
   emitsOpt_mk Testing.chunks _ _ _ _ (fun d => by simp [Testing.chunks]),
   emitsOpt_mk Testing.chunks _ _ _ _ (fun d => by simp [Testing.chunks]),
   emitsOpt_mk Testing.chunks _ _ _ _ (fun d => by simp [Testing.chunks]),
   emitsOpt_mk Testing.chunks _ _ _ _ (fun d => by simp [Testing.chunks]),
   emitsOpt_mk Testing.chunks _ _ _ _ (fun d => by simp [Testing.chunks]),
   emitsOpt_mk Testing.chunks _ _ _ _ (fun d => by simp [Testing.chunks]),
   emitsOpt_mk Testing.chunks _ _ _ _ (fun d => by simp [Testing.chunks]),
   emitsOpt_mk Testing.chunks _ _ _ _ (fun d => by simp [Testing.chunks]),
   emitsOpt_mk SecurityAudit.chunks _ _ _ _ (fun d => by simp [SecurityAudit.chunks]),
   emitsOpt_mk SecurityAudit.chunks _ _ _ _ (fun d => by simp [SecurityAudit.chunks]),
   emitsOpt_mk SecurityAudit.chunks _ _ _ _ (fun d => by simp [SecurityAudit.chunks]),
   emitsOpt_mk SecurityAudit.chunks _ _ _ _ (fun d => by simp [SecurityAudit.chunks]),
   emitsOpt_mk SecurityAudit.chunks _ _ _ _ (fun d => by simp [SecurityAudit.chunks]),
   emitsOpt_mk SecurityAudit.chunks _ _ _ _ (fun d => by simp [SecurityAudit.chunks]),
   emitsOpt_mk SecurityAudit.chunks _ _ _ _ (fun d => by simp [SecurityAudit.chunks]),
   emitsOpt_mk Cleanup.chunks _ _ _ _ (fun d => by simp [Cleanup.chunks]),
   emitsOpt_mk Cleanup.chunks _ _ _ _ (fun d => by simp [Cleanup.chunks]),
   emitsOpt_mk Cleanup.chunks _ _ _ _ (fun d => by simp [Cleanup.chunks]),
   emitsOpt_mk Cleanup.chunks _ _ _ _ (fun d => by simp [Cleanup.chunks]),
   emitsOpt_mk Cleanup.chunks _ _ _ _ (fun d => by simp [Cleanup.chunks]),
   emitsOpt_mk Cleanup.chunks _ _ _ _ (fun d => by simp [Cleanup.chunks]),
   emitsOpt_mk Cleanup.chunks _ _ _ _ (fun d => by simp [Cleanup.chunks]),
   emitsOpt_mk Cleanup.chunks _ _ _ _ (fun d => by simp [Cleanup.chunks])⟩

set_option maxHeartbeats 2000000 in
/-- C4: rating label mapping. For every rating-typed field of every card
type and every value `v` with `1 ≤ v ≤ 5`, the rendered element carries the
attribute `level="v"` and its text is the `v`-th entry of the field's fixed
5-entry label list (`ratingLabels[v-1]`). The `detail_level` rating of the
feature_change page sits inside its conditional documentation block, so that
conjunct additionally assumes `enableDocumentation = true`. -/
theorem claim_C4_rating_label_mapping :
    (EmitsRating BugFix.generateXML (fun d => d.documentationDepth) "<detail_level level=\"" ["Minimal - snappy dot points", "Brief - key points only", "Standard - balanced detail", "Detailed - thorough coverage", "Deep - comprehensive documentation"] "</detail_level>")
  ∧ (EmitsRating BugFix.generateXML (fun d => d.urgency) "<urgency level=\"" ["Low - whenever", "Minor - soon", "Normal", "High - ASAP", "Critical - NOW"] "</urgency>")
  ∧ (EmitsRating BugFix.generateXML (fun d => d.testingLevel) "<testing_level level=\"" ["Minimal - just verify fix", "Light - basic tests", "Standard", "Thorough - edge cases", "Exhaustive - full coverage"] "</testing_level>")
  ∧ (EmitsRating BugFix.generateXML (fun d => d.creativityLevel) "<creativity_level level=\"" ["Conservative - safest fix", "Cautious", "Balanced", "Open to ideas", "Creative - explore options"] "</creativity_level>")
  ∧ (EmitsRating BugFix.generateXML (fun d => d.logVerbosity) "<log_verbosity level=\"" ["Silent - errors only", "Quiet", "Normal", "Verbose", "Debug - everything"] "</log_verbosity>")
  ∧ (EmitsRating FeatureRequest.generateXML (fun d => d.documentationDepth) "<detail_level level=\"" ["Minimal - snappy dot points", "Brief - key points only", "Standard - balanced detail", "Detailed - thorough coverage", "Deep - comprehensive documentation"] "</detail_level>")
  ∧ (EmitsRating FeatureRequest.generateXML (fun d => d.creativityLevel) "<creativity_level level=\"" ["Conservative - follow patterns strictly", "Cautious - minimal innovation", "Balanced", "Open - suggest improvements", "Creative - propose best solutions"] "</creativity_level>")
  ∧ (EmitsRating FeatureRequest.generateXML (fun d => d.scopeLevel) "<scope_level level=\"" ["MVP - bare minimum", "Lean - essential only", "Standard", "Complete - polish included", "Comprehensive - full bells & whistles"] "</scope_level>")
  ∧ (EmitsRating FeatureRequest.generateXML (fun d => d.documentationLevel) "<documentation_level level=\"" ["None - just code", "Minimal - key comments", "Standard", "Detailed - inline docs", "Extensive - full documentation"] "</documentation_level>")
  ∧ (EmitsRating FeatureRequest.generateXML (fun d => d.loggingLevel) "<logging_level level=\"" ["None", "Errors only", "Standard", "Verbose", "Debug everything"] "</logging_level>")
  ∧ (EmitsRating FeatureChange.generateXML (fun d => d.testingLevel) "<testing_level level=\"" ["Minimal - trust the change", "Light - spot check", "Standard", "Thorough - regression tests", "Exhaustive - full test suite"] "</testing_level>")
  ∧ (EmitsRating FeatureChange.generateXML (fun d => d.riskTolerance) "<risk_tolerance level=\"" ["Very cautious - safest approach", "Conservative", "Balanced", "Open to moderate risk", "Bold - willing to refactor heavily"] "</risk_tolerance>")
  ∧ (EmitsRating FeatureChange.generateXML (fun d => d.scopeLevel) "<scope_level level=\"" ["Minimal - only what\x27s needed", "Focused", "Standard", "Broader - related improvements", "Comprehensive - full cleanup"] "</scope_level>")
  ∧ (EmitsRating FeatureChange.generateXML (fun d => d.refactorDepth) "<refactor_depth level=\"" ["Surface - cosmetic only", "Shallow", "Moderate", "Deep", "Complete rewrite if needed"] "</refactor_depth>")
  ∧ (EmitsRating Documentation.generateXML (fun d => d.detailLevel) "<detail_level level=\"" ["Minimal - brief descriptions", "Concise", "Standard", "Detailed", "Comprehensive - exhaustive detail"] "</detail_level>")
  ∧ (EmitsRating Documentation.generateXML (fun d => d.technicalDepth) "<technical_depth level=\"" ["Beginner - no jargon", "Basic", "Intermediate", "Advanced", "Expert - assume deep knowledge"] "</technical_depth>")
  ∧ (EmitsRating Documentation.generateXML (fun d => d.examplesLevel) "<examples_level level=\"" ["None", "Minimal - one basic example", "Some examples", "Many examples", "Extensive - cover all cases"] "</examples_level>")
  ∧ (EmitsRating Documentation.generateXML (fun d => d.exampleComplexity) "<example_complexity level=\"" ["Trivial - hello world", "Simple", "Moderate", "Complex", "Real-world production examples"] "</example_complexity>")
  ∧ (EmitsRating Testing.generateXML (fun d => d.documentationDepth) "<detail_level level=\"" ["Minimal - snappy dot points", "Brief - key points only", "Standard - balanced detail", "Detailed - thorough coverage", "Deep - comprehensive documentation"] "</detail_level>")
  ∧ (EmitsRating Testing.generateXML (fun d => d.coverage) "<coverage_goal level=\"" ["Minimal - key paths only", "Basic - happy paths", "Standard - most cases", "High - edge cases included", "Comprehensive - 90%+ coverage"] "</coverage_goal>")
  ∧ (EmitsRating Testing.generateXML (fun d => d.thoroughness) "<thoroughness level=\"" ["Quick smoke tests", "Basic validation", "Standard testing", "Thorough testing", "Exhaustive - all scenarios"] "</thoroughness>")
  ∧ (EmitsRating Testing.generateXML (fun d => d.mockingLevel) "<mocking_level level=\"" ["No mocking - real dependencies", "Minimal mocking", "Standard mocking", "Heavy mocking", "Full isolation - mock everything"] "</mocking_level>")
  ∧ (EmitsRating Testing.generateXML (fun d => d.mockDepth) "<mock_depth level=\"" ["Shallow - direct deps only", "Basic", "Standard", "Deep", "Complete - all layers"] "</mock_depth>")
  ∧ (EmitsRating SecurityAudit.generateXML (fun d => d.documentationDepth) "<detail_level level=\"" ["Minimal - snappy dot points", "Brief - key points only", "Standard - balanced detail", "Detailed - thorough coverage", "Deep - comprehensive documentation"] "</detail_level>")
  ∧ (EmitsRating SecurityAudit.generateXML (fun d => d.severity) "<minimum_severity level=\"" ["Critical only", "Critical + High", "Medium and above", "Low and above", "All including informational"] "</minimum_severity>")
  ∧ (EmitsRating SecurityAudit.generateXML (fun d => d.thoroughness) "<thoroughness level=\"" ["Quick scan - obvious issues", "Basic review", "Standard audit", "Deep analysis", "Exhaustive - pentester level"] "</thoroughness>")
  ∧ (EmitsRating SecurityAudit.generateXML (fun d => d.complianceLevel) "<compliance_level level=\"" ["No compliance needed", "Basic standards", "Industry standards", "Strict compliance", "Regulatory audit ready"] "</compliance_level>")
  ∧ (EmitsRating Cleanup.generateXML (fun d => d.aggressiveness) "<aggressiveness level=\"" ["Conservative - obvious issues only", "Light cleanup", "Standard cleanup", "Thorough cleanup", "Aggressive - maximum cleanup"] "</aggressiveness>")
  ∧ (EmitsRating Cleanup.generateXML (fun d => d.preserveComments) "<preserve_comments level=\"" ["Remove most comments", "Remove stale comments", "Keep useful comments", "Preserve most comments", "Preserve all comments"] "</preserve_comments>")
  ∧ (EmitsRating Cleanup.generateXML (fun d => d.testingRequired) "<testing_required level=\"" ["No testing needed", "Manual spot check", "Run existing tests", "Full test coverage", "Requires new tests for changes"] "</testing_required>")
  ∧ ((∀ d : FeatureChange.FeatureChangeData, d.enableDocumentation = true →
      1 ≤ d.documentationDepth → d.documentationDepth ≤ 5 →
      ContainsSub (FeatureChange.generateXML d)
        ("<detail_level level=\"" ++ toString d.documentationDepth ++ "\">" ++
          (["Minimal - snappy dot points", "Brief - key points only", "Standard - balanced detail", "Detailed - thorough coverage", "Deep - comprehensive documentation"]).getD (d.documentationDepth - 1).toNat "undefined" ++ "</detail_level>"))) :=
  ⟨emitsRating_mk BugFix.chunks _ _ _ _ (fun d => by simp [BugFix.chunks, BugFix.getDocDepthLabel]),
   emitsRating_mk BugFix.chunks _ _ _ _ (fun d => by simp [BugFix.chunks, BugFix.getUrgencyLabel]),
   emitsRating_mk BugFix.chunks _ _ _ _ (fun d => by simp [BugFix.chunks, BugFix.getTestingLabel]),
   emitsRating_mk BugFix.chunks _ _ _ _ (fun d => by simp [BugFix.chunks, BugFix.getCreativityLabel]),
   emitsRating_mk BugFix.chunks _ _ _ _ (fun d => by simp [BugFix.chunks, BugFix.getVerbosityLabel]),
   emitsRating_mk FeatureRequest.chunks _ _ _ _ (fun d => by simp [FeatureRequest.chunks, FeatureRequest.getDocDepthLabel]),
   emitsRating_mk FeatureRequest.chunks _ _ _ _ (fun d => by simp [FeatureRequest.chunks, FeatureRequest.getCreativityLabel]),
   emitsRating_mk FeatureRequest.chunks _ _ _ _ (fun d => by simp [FeatureRequest.chunks, FeatureRequest.getScopeLabel]),
   emitsRating_mk FeatureRequest.chunks _ _ _ _ (fun d => by simp [FeatureRequest.chunks, FeatureRequest.getDocumentationLabel]),
   emitsRating_mk FeatureRequest.chunks _ _ _ _ (fun d => by simp [FeatureRequest.chunks, FeatureRequest.getLoggingLabel]),
   emitsRating_mk FeatureChange.chunks _ _ _ _ (fun d => by simp [FeatureChange.chunks, FeatureChange.getTestingLabel]),
   emitsRating_mk FeatureChange.chunks _ _ _ _ (fun d => by simp [FeatureChange.chunks, FeatureChange.getRiskLabel]),
   emitsRating_mk FeatureChange.chunks _ _ _ _ (fun d => by simp [FeatureChange.chunks, FeatureChange.getScopeLabel]),
   emitsRating_mk FeatureChange.chunks _ _ _ _ (fun d => by simp [FeatureChange.chunks, FeatureChange.getRefactorLabel]),
   emitsRating_mk Documentation.chunks _ _ _ _ (fun d => by simp [Documentation.chunks, Documentation.getDetailLabel]),
   emitsRating_mk Documentation.chunks _ _ _ _ (fun d => by simp [Documentation.chunks, Documentation.getTechDepthLabel]),
   emitsRating_mk Documentation.chunks _ _ _ _ (fun d => by simp [Documentation.chunks, Documentation.getExamplesLabel]),
   emitsRating_mk Documentation.chunks _ _ _ _ (fun d => by simp [Documentation.chunks, Documentation.getComplexityLabel]),
   emitsRating_mk Testing.chunks _ _ _ _ (fun d => by simp [Testing.chunks, Testing.getDocDepthLabel]),
   emitsRating_mk Testing.chunks _ _ _ _ (fun d => by simp [Testing.chunks, Testing.getCoverageLabel]),
   emitsRating_mk Testing.chunks _ _ _ _ (fun d => by simp [Testing.chunks, Testing.getThoroughnessLabel]),
   emitsRating_mk Testing.chunks _ _ _ _ (fun d => by simp [Testing.chunks, Testing.getMockingLabel]),
   emitsRating_mk Testing.chunks _ _ _ _ (fun d => by simp [Testing.chunks, Testing.getMockDepthLabel]),
   emitsRating_mk SecurityAudit.chunks _ _ _ _ (fun d => by simp [SecurityAudit.chunks, SecurityAudit.getDocDepthLabel]),
   emitsRating_mk SecurityAudit.chunks _ _ _ _ (fun d => by simp [SecurityAudit.chunks, SecurityAudit.getSeverityLabel]),
   emitsRating_mk SecurityAudit.chunks _ _ _ _ (fun d => by simp [SecurityAudit.chunks, SecurityAudit.getThoroughnessLabel]),
   emitsRating_mk SecurityAudit.chunks _ _ _ _ (fun d => by simp [SecurityAudit.chunks, SecurityAudit.getComplianceLabel]),
   emitsRating_mk Cleanup.chunks _ _ _ _ (fun d => by simp [Cleanup.chunks, Cleanup.getAggressivenessLabel]),
   emitsRating_mk Cleanup.chunks _ _ _ _ (fun d => by simp [Cleanup.chunks, Cleanup.getCommentsLabel]),
   emitsRating_mk Cleanup.chunks _ _ _ _ (fun d => by simp [Cleanup.chunks, Cleanup.getTestingLabel]),
   fun d hdoc h1 _h2 => by
     have e := jsGet_of_nonneg ["Minimal - snappy dot points", "Brief - key points only", "Standard - balanced detail", "Detailed - thorough coverage", "Deep - comprehensive documentation"] (d.documentationDepth - 1) (by omega)
     rw [← e]
     refine sub_join_of_mem (FeatureChange.docBlock d) ?_ (by simp [FeatureChange.chunks])
     rw [FeatureChange.docBlock, hdoc]
     simp only [if_true]
     exact sub_join_of_mem _ (csub_self _)
       (by simp [FeatureChange.docChunks, FeatureChange.getDocDepthLabel])⟩

/-- Witness for C4 at a concrete input: the bug_fix defaults have
`documentationDepth = 3`, and the output contains the `detail_level` element
with `level="3"` and the third label. -/
theorem claim_C4_rating_label_mapping_witness :
    ContainsSub (BugFix.generateXML BugFix.defaultFormData)
      ("<detail_level level=\"" ++ toString BugFix.defaultFormData.documentationDepth ++ "\">" ++
        (["Minimal - snappy dot points", "Brief - key points only", "Standard - balanced detail", "Detailed - thorough coverage", "Deep - comprehensive documentation"]).getD (BugFix.defaultFormData.documentationDepth - 1).toNat "undefined" ++ "</detail_level>") :=
  claim_C4_rating_label_mapping.1 BugFix.defaultFormData (by decide) (by decide)

/-- C3: the filename sanitizer equals the spec's composition - lowercase,
remove characters outside `[a-z0-9\s-]`, collapse whitespace runs to `_`,
collapse dash runs to `_`, truncate to 50 characters, and substitute the
literal `untitled` for an empty result - stated against the independent
pairwise-lookahead formulation of run collapsing; and `sanitizeFilename ""`
is `"untitled"`. Totality holds by construction: the embedding is a total
Lean function on all strings. -/
theorem claim_C3_sanitizer_composition :
    (∀ t : String, sanitizeFilename t = sanitizeSpec t) ∧ sanitizeFilename "" = "untitled" :=
  ⟨fun t => by simp [sanitizeFilename, sanitizeSpec, collapseRuns_eq_spec], rfl⟩

/-- C7: the sanitizer maps `"---"` to `"_"`: the dash run collapses to one
underscore, which is nonempty, so the `untitled` default does not fire. -/
theorem claim_C7_sanitize_all_dashes : sanitizeFilename "---" = "_" := by decide

/-- C8: on the scenario input the bug_fix card contains the root element
with its type attribute, the observed behavior verbatim, and the urgency
element at level 3 with label `Normal`. -/
theorem claim_C8_bug_fix_scenario :
    ContainsSub (BugFix.generateXML c8Input) "<task_card type=\"bug_fix\""
  ∧ ContainsSub (BugFix.generateXML c8Input) "<observed_behavior>X fails</observed_behavior>"
  ∧ ContainsSub (BugFix.generateXML c8Input) "<urgency level=\"3\">Normal</urgency>" :=
  ⟨sub_join_of_mem "<task_card type=\"bug_fix\" title=\"" (by decide) (by simp [BugFix.chunks]),
   sub_join_of_mem ("<observed_behavior>" ++ c8Input.observedBehavior ++ "</observed_behavior>")
     (by decide) (by simp [BugFix.chunks]),
   sub_join_of_mem
     ("<urgency level=\"" ++ toString c8Input.urgency ++ "\">" ++
       BugFix.getUrgencyLabel c8Input.urgency ++ "</urgency>")
     (by decide) (by simp [BugFix.chunks])⟩

set_option maxHeartbeats 1000000 in
/-- C9: export filenames. For each titled card type the downloaded file is
named `sanitize(title) ++ "_" ++ cardType ++ ".xml"`; the documentation page,
which has no title field, downloads under the fixed literal name
`documentation_task.xml` whatever the form values are. -/
theorem claim_C9_export_filenames :
    (∀ d : BugFix.BugFixData,
      BugFix.downloadFilename d = sanitizeFilename d.punchcardTitle ++ "_" ++ "bug_fix" ++ ".xml")
  ∧ (∀ d : FeatureRequest.FeatureRequestData,
      FeatureRequest.downloadFilename d = sanitizeFilename d.punchcardTitle ++ "_" ++ "feature_request" ++ ".xml")
  ∧ (∀ d : FeatureChange.FeatureChangeData,
      FeatureChange.downloadFilename d = sanitizeFilename d.punchcardTitle ++ "_" ++ "feature_change" ++ ".xml")
  ∧ (∀ d : Testing.TestingData,
      Testing.downloadFilename d = sanitizeFilename d.punchcardTitle ++ "_" ++ "testing" ++ ".xml")
  ∧ (∀ d : SecurityAudit.SecurityAuditData,
      SecurityAudit.downloadFilename d = sanitizeFilename d.punchcardTitle ++ "_" ++ "security_audit" ++ ".xml")
  ∧ (∀ d : Documentation.DocumentationData,
      Documentation.downloadFilename d = "documentation_task.xml") :=
  ⟨fun d => by
    show sanitizeFilename d.punchcardTitle ++ "_bug_fix.xml" = _
    rw [sappend_assoc, sappend_assoc]
    congr 1,
   fun d => by
    show sanitizeFilename d.punchcardTitle ++ "_feature_request.xml" = _
    rw [sappend_assoc, sappend_assoc]
    congr 1,
   fun d => by
    show sanitizeFilename d.punchcardTitle ++ "_feature_change.xml" = _
    rw [sappend_assoc, sappend_assoc]
    congr 1,
   fun d => by
    show sanitizeFilename d.punchcardTitle ++ "_testing.xml" = _
    rw [sappend_assoc, sappend_assoc]
    congr 1,
   fun d => by
    show sanitizeFilename d.punchcardTitle ++ "_security_audit.xml" = _
    rw [sappend_assoc, sappend_assoc]
    congr 1,
   fun _d => rfl⟩

set_option maxHeartbeats 4000000 in
/-- C10: every titled card's root `<task_card>` element always carries a
title attribute at a fixed position; it is the per-type `Untitled ...`
placeholder exactly when the user title is the empty string and the user
title verbatim (unescaped, unsanitized) otherwise. -/
theorem claim_C10_title_attribute :
    (∀ d : BugFix.BugFixData, ∃ r,
      BugFix.generateXML d =
        "<task_card type=\"bug_fix\" title=\"" ++
          ((if d.punchcardTitle = "" then "Untitled Bug Fix" else d.punchcardTitle) ++ ("\">" ++ r)))
  ∧ (∀ d : FeatureRequest.FeatureRequestData, ∃ r,
      FeatureRequest.generateXML d =
        "<task_card type=\"feature_request\" title=\"" ++
          ((if d.punchcardTitle = "" then "Untitled Feature Request" else d.punchcardTitle) ++ ("\">" ++ r)))
  ∧ (∀ d : FeatureChange.FeatureChangeData, ∃ r,
      FeatureChange.generateXML d =
        "<task_card type=\"feature_change\" title=\"" ++
          ((if d.punchcardTitle = "" then "Untitled Feature Change" else d.punchcardTitle) ++ ("\">" ++ r)))
  ∧ (∀ d : Testing.TestingData, ∃ r,
      Testing.generateXML d =
        "<task_card type=\"testing\" title=\"" ++
          ((if d.punchcardTitle = "" then "Untitled Testing" else d.punchcardTitle) ++ ("\">" ++ r)))
  ∧ (∀ d : SecurityAudit.SecurityAuditData, ∃ r,
      SecurityAudit.generateXML d =
        "<task_card type=\"security_audit\" title=\"" ++
          ((if d.punchcardTitle = "" then "Untitled Security Audit" else d.punchcardTitle) ++ ("\">" ++ r))) :=
  ⟨fun d => ⟨sjoin ((BugFix.chunks d).drop 3),
     by simp [BugFix.generateXML, BugFix.chunks, sjoin, orD, sappend_assoc]⟩,
   fun d => ⟨sjoin ((FeatureRequest.chunks d).drop 3),
     by simp [FeatureRequest.generateXML, FeatureRequest.chunks, sjoin, orD, sappend_assoc]⟩,
   fun d => ⟨sjoin ((FeatureChange.chunks d).drop 3),
     by simp [FeatureChange.generateXML, FeatureChange.chunks, sjoin, orD, sappend_assoc]⟩,
   fun d => ⟨sjoin ((Testing.chunks d).drop 3),
     by simp [Testing.generateXML, Testing.chunks, sjoin, orD, sappend_assoc]⟩,
   fun d => ⟨sjoin ((SecurityAudit.chunks d).drop 3),
     by simp [SecurityAudit.generateXML, SecurityAudit.chunks, sjoin, orD, sappend_assoc]⟩⟩

set_option maxRecDepth 20000 in
/-- On the feature_change page with `enableDocumentation = false`, the output
contains no format-legend line at all. -/
theorem fcOff_no_legend :
    ¬ ContainsSub (FeatureChange.generateXML fcNoDocInput)
      "Level 1: Task title, one-line summary, files changed (bullet list)" := by
  show ¬ List.IsInfix
    ("Level 1: Task title, one-line summary, files changed (bullet list)".data)
    ((sjoin (FeatureChange.chunks fcNoDocInput)).data)
  refine noSub_cons (by decide) ?_
  refine noSub_cons (by decide) ?_
  refine noSub_cons (by decide) ?_
  refine noSub_cons (by decide) ?_
  refine noSub_cons (by decide) ?_
  refine noSub_cons (by decide) ?_
  refine noSub_cons (by decide) ?_
  refine noSub_cons (by decide) ?_
  refine noSub_cons (by decide) ?_
  refine noSub_cons (by decide) ?_
  refine noSub_cons (by decide) ?_
  refine noSub_cons (by decide) ?_
  refine noSub_cons (by decide) ?_
  refine noSub_cons (by decide) ?_
  refine noSub_cons (by decide) ?_
  refine noSub_cons (by decide) ?_
  refine noSub_cons (by decide) ?_
  refine noSub_cons (by decide) ?_
  refine noSub_cons (by decide) ?_
  refine noSub_cons (by decide) ?_
  refine noSub_cons (by decide) ?_
  refine noSub_cons (by decide) ?_
  refine noSub_cons (by decide) ?_
  refine noSub_cons (by decide) ?_
  refine noSub_cons (by decide) ?_
  refine noSub_cons (by decide) ?_
  refine noSub_cons (by decide) ?_
  refine noSub_cons (by decide) ?_
  refine noSub_cons (by decide) ?_
  refine noSub_cons (by decide) ?_
  refine noSub_cons (by decide) ?_
  refine noSub_cons (by decide) ?_
  refine noSub_cons (by decide) ?_
  refine noSub_cons (by decide) ?_
  refine noSub_cons (by decide) ?_
  refine noSub_cons (by decide) ?_
  refine noSub_cons (by decide) ?_
  refine noSub_cons (by decide) ?_
  refine noSub_cons (by decide) ?_
  refine noSub_cons (by decide) ?_
  refine noSub_cons (by decide) ?_
  refine noSub_cons (by decide) ?_
  refine noSub_cons (by decide) ?_
  refine noSub_cons (by decide) ?_
  refine noSub_cons (by decide) ?_
  refine noSub_cons (by decide) ?_
  refine noSub_cons (by decide) ?_
  refine noSub_cons (by decide) ?_
  refine noSub_cons (by decide) ?_
  refine noSub_cons (by decide) ?_
  refine noSub_cons (by decide) ?_
  refine noSub_cons (by decide) ?_
  refine noSub_cons (by decide) ?_
  refine noSub_cons (by decide) ?_
  refine noSub_cons (by decide) ?_
  refine noSub_cons (by decide) ?_
  refine noSub_cons (by decide) ?_
  refine noSub_cons (by decide) ?_
  refine noSub_cons (by decide) ?_
  refine noSub_cons (by decide) ?_
  refine noSub_cons (by decide) ?_
  refine noSub_cons (by decide) ?_
  refine noSub_cons (by decide) ?_
  refine noSub_cons (by decide) ?_
  refine noSub_cons (by decide) ?_
  refine noSub_cons (by decide) ?_
  refine noSub_cons (by decide) ?_
  refine noSub_cons (by decide) ?_
  refine noSub_cons (by decide) ?_
  refine noSub_cons (by decide) ?_
  refine noSub_cons (by decide) ?_
  refine noSub_cons (by decide) ?_
  refine noSub_cons (by decide) ?_
  refine noSub_cons (by decide) ?_
  refine noSub_cons (by decide) ?_
  refine noSub_cons (by decide) ?_
  refine noSub_cons (by decide) ?_
  refine noSub_cons (by decide) ?_
  refine noSub_cons (by decide) ?_
  refine noSub_cons (by decide) ?_
  refine noSub_cons (by decide) ?_
  refine noSub_cons (by decide) ?_
  refine noSub_cons (by decide) ?_
  refine noSub_cons (by decide) ?_
  refine noSub_cons (by decide) ?_
  refine noSub_cons (by decide) ?_
  refine noSub_cons (by decide) ?_
  refine noSub_cons (by decide) ?_
  refine noSub_cons (by decide) ?_
  refine noSub_cons (by decide) ?_
  refine noSub_cons (by decide) ?_
  refine noSub_cons (by decide) ?_
  refine noSub_cons (by decide) ?_
  refine noSub_cons (by decide) ?_
  refine noSub_cons (by decide) ?_
  decide

/-- C5 counterexample: the claim fails at the feature_change card with the
documentation checkbox off - the template declares a documentation block
(the `documentationBlock` local), yet for this input the rendered output
contains no 5-line format legend. -/
theorem claim_C5_counterexample :
    ¬ ContainsSub (FeatureChange.generateXML fcNoDocInput)
      "Level 1: Task title, one-line summary, files changed (bullet list)" :=
  fcOff_no_legend

set_option maxHeartbeats 4000000 in
/-- C5 (amended): bug_fix, feature_request, testing and security_audit render
the documentation payload - 5-line format legend, selected depth label, and
output path `punchcards/<sanitize(title)>.md` - on every input; feature_change
renders it exactly under its `enableDocumentation` flag (on by default), not
unconditionally. -/
theorem claim_C5_documentation_payload :
    EmitsDocBlock BugFix.generateXML (fun d => d.punchcardTitle)
      (fun d => d.documentationDepth) BugFix.getDocDepthLabel
  ∧ EmitsDocBlock FeatureRequest.generateXML (fun d => d.punchcardTitle)
      (fun d => d.documentationDepth) FeatureRequest.getDocDepthLabel
  ∧ EmitsDocBlock Testing.generateXML (fun d => d.punchcardTitle)
      (fun d => d.documentationDepth) Testing.getDocDepthLabel
  ∧ EmitsDocBlock SecurityAudit.generateXML (fun d => d.punchcardTitle)
      (fun d => d.documentationDepth) SecurityAudit.getDocDepthLabel
  ∧ (∀ d : FeatureChange.FeatureChangeData, d.enableDocumentation = true →
      ContainsSub (FeatureChange.generateXML d)
        ("<output_path>punchcards/" ++ sanitizeFilename d.punchcardTitle ++ ".md</output_path>")
    ∧ ContainsSub (FeatureChange.generateXML d)
        ("<detail_level level=\"" ++ toString d.documentationDepth ++ "\">" ++
          FeatureChange.getDocDepthLabel d.documentationDepth ++ "</detail_level>")
    ∧ ContainsSub (FeatureChange.generateXML d) "Level 1: Task title, one-line summary, files changed (bullet list)"
    ∧ ContainsSub (FeatureChange.generateXML d) "Level 2: Above + brief problem/solution description"
    ∧ ContainsSub (FeatureChange.generateXML d) "Level 3: Above + key decisions made, testing notes"
    ∧ ContainsSub (FeatureChange.generateXML d) "Level 4: Above + detailed reasoning, edge cases considered, related issues"
    ∧ ContainsSub (FeatureChange.generateXML d) "Level 5: Above + full context, alternative approaches considered, future considerations") :=
  ⟨fun d =>
     ⟨sub_join_of_mem _ (csub_self _) (by simp [BugFix.chunks]),
      sub_join_of_mem _ (csub_self _) (by simp [BugFix.chunks]),
      sub_join_of_mem "\n        <format>\n            Level 1: Task title, one-line summary, files changed (bullet list)\n" (by decide) (by simp [BugFix.chunks]),
      sub_join_of_mem "            Level 2: Above + brief problem/solution description\n" (by decide) (by simp [BugFix.chunks]),
      sub_join_of_mem "            Level 3: Above + key decisions made, testing notes\n" (by decide) (by simp [BugFix.chunks]),
      sub_join_of_mem "            Level 4: Above + detailed reasoning, edge cases considered, related issues\n" (by decide) (by simp [BugFix.chunks]),
      sub_join_of_mem "            Level 5: Above + full context, alternative approaches considered, future considerations\n" (by decide) (by simp [BugFix.chunks])⟩,
   fun d =>
     ⟨sub_join_of_mem _ (csub_self _) (by simp [FeatureRequest.chunks]),
      sub_join_of_mem _ (csub_self _) (by simp [FeatureRequest.chunks]),
      sub_join_of_mem "\n    <format>\n      Level 1: Task title, one-line summary, files changed (bullet list)\n" (by decide) (by simp [FeatureRequest.chunks]),
      sub_join_of_mem "      Level 2: Above + brief problem/solution description\n" (by decide) (by simp [FeatureRequest.chunks]),
      sub_join_of_mem "      Level 3: Above + key decisions made, testing notes\n" (by decide) (by simp [FeatureRequest.chunks]),
      sub_join_of_mem "      Level 4: Above + detailed reasoning, edge cases considered, related issues\n" (by decide) (by simp [FeatureRequest.chunks]),
      sub_join_of_mem "      Level 5: Above + full context, alternative approaches considered, future considerations\n    </format>\n" (by decide) (by simp [FeatureRequest.chunks])⟩,
   fun d =>
     ⟨sub_join_of_mem _ (csub_self _) (by simp [Testing.chunks]),
      sub_join_of_mem _ (csub_self _) (by simp [Testing.chunks]),
      sub_join_of_mem "\n    <format>\n      Level 1: Task title, one-line summary, files changed (bullet list)\n" (by decide) (by simp [Testing.chunks]),
      sub_join_of_mem "      Level 2: Above + brief problem/solution description\n" (by decide) (by simp [Testing.chunks]),
      sub_join_of_mem "      Level 3: Above + key decisions made, testing notes\n" (by decide) (by simp [Testing.chunks]),
      sub_join_of_mem "      Level 4: Above + detailed reasoning, edge cases considered, related issues\n" (by decide) (by simp [Testing.chunks]),
      sub_join_of_mem "      Level 5: Above + full context, alternative approaches considered, future considerations\n    </format>\n" (by decide) (by simp [Testing.chunks])⟩,
   fun d =>
     ⟨sub_join_of_mem _ (csub_self _) (by simp [SecurityAudit.chunks]),
      sub_join_of_mem _ (csub_self _) (by simp [SecurityAudit.chunks]),
      sub_join_of_mem "\n    <format>\n      Level 1: Task title, one-line summary, files changed (bullet list)\n" (by decide) (by simp [SecurityAudit.chunks]),
      sub_join_of_mem "      Level 2: Above + brief problem/solution description\n" (by decide) (by simp [SecurityAudit.chunks]),
      sub_join_of_mem "      Level 3: Above + key decisions made, testing notes\n" (by decide) (by simp [SecurityAudit.chunks]),
      sub_join_of_mem "      Level 4: Above + detailed reasoning, edge cases considered, related issues\n" (by decide) (by simp [SecurityAudit.chunks]),
      sub_join_of_mem "      Level 5: Above + full context, alternative approaches considered, future considerations\n    </format>\n" (by decide) (by simp [SecurityAudit.chunks])⟩,
   fun d hdoc => by
     have hmem : FeatureChange.docBlock d ∈ FeatureChange.chunks d := by
       simp [FeatureChange.chunks]
     have hopen : ∀ {m : String}, ContainsSub (FeatureChange.docBlock d) m →
         ContainsSub (FeatureChange.generateXML d) m :=
       fun h => sub_join_of_mem _ h hmem
     have hblock : FeatureChange.docBlock d = sjoin (FeatureChange.docChunks d) := by
       rw [FeatureChange.docBlock, hdoc]
       simp
     exact ⟨hopen (by rw [hblock]; exact sub_join_of_mem _ (csub_self _) (by simp [FeatureChange.docChunks])),
       hopen (by rw [hblock]; exact sub_join_of_mem _ (csub_self _) (by simp [FeatureChange.docChunks])),
       hopen (by rw [hblock]; exact sub_join_of_mem "\n    <format>\n      Level 1: Task title, one-line summary, files changed (bullet list)\n" (by decide) (by simp [FeatureChange.docChunks])),
       hopen (by rw [hblock]; exact sub_join_of_mem "      Level 2: Above + brief problem/solution description\n" (by decide) (by simp [FeatureChange.docChunks])),
       hopen (by rw [hblock]; exact sub_join_of_mem "      Level 3: Above + key decisions made, testing notes\n" (by decide) (by simp [FeatureChange.docChunks])),
       hopen (by rw [hblock]; exact sub_join_of_mem "      Level 4: Above + detailed reasoning, edge cases considered, related issues\n" (by decide) (by simp [FeatureChange.docChunks])),
       hopen (by rw [hblock]; exact sub_join_of_mem "      Level 5: Above + full context, alternative approaches considered, future considerations\n    </format>\n" (by decide) (by simp [FeatureChange.docChunks]))⟩⟩

/-- Witness for C5 at a concrete input: the feature_change defaults have the
documentation checkbox on, so the payload is present. -/
theorem claim_C5_documentation_payload_witness :
    ContainsSub (FeatureChange.generateXML FeatureChange.defaultFormData)
      "Level 1: Task title, one-line summary, files changed (bullet list)" :=
  (claim_C5_documentation_payload.2.2.2.2 FeatureChange.defaultFormData rfl).2.2.1

set_option maxRecDepth 20000 in
/-- The documentation card's output at the default inputs contains no
`<documentation_requirement>` block. -/
theorem documentation_no_docreq :
    ¬ ContainsSub (Documentation.generateXML Documentation.defaultFormData)
      "<documentation_requirement>" := by
  show ¬ List.IsInfix ("<documentation_requirement>".data)
    ((sjoin (Documentation.chunks Documentation.defaultFormData)).data)
  refine noSub_cons (by decide) ?_
  refine noSub_cons (by decide) ?_
  refine noSub_cons (by decide) ?_
  refine noSub_cons (by decide) ?_
  refine noSub_cons (by decide) ?_
  refine noSub_cons (by decide) ?_
  refine noSub_cons (by decide) ?_
  refine noSub_cons (by decide) ?_
  refine noSub_cons (by decide) ?_
  refine noSub_cons (by decide) ?_
  refine noSub_cons (by decide) ?_
  refine noSub_cons (by decide) ?_
  refine noSub_cons (by decide) ?_
  refine noSub_cons (by decide) ?_
  refine noSub_cons (by decide) ?_
  refine noSub_cons (by decide) ?_
  refine noSub_cons (by decide) ?_
  refine noSub_cons (by decide) ?_
  refine noSub_cons (by decide) ?_
  refine noSub_cons (by decide) ?_
  refine noSub_cons (by decide) ?_
  refine noSub_cons (by decide) ?_
  refine noSub_cons (by decide) ?_
  refine noSub_cons (by decide) ?_
  refine noSub_cons (by decide) ?_
  refine noSub_cons (by decide) ?_
  refine noSub_cons (by decide) ?_
  refine noSub_cons (by decide) ?_
  refine noSub_cons (by decide) ?_
  refine noSub_cons (by decide) ?_
  refine noSub_cons (by decide) ?_
  refine noSub_cons (by decide) ?_
  refine noSub_cons (by decide) ?_
  refine noSub_cons (by decide) ?_
  refine noSub_cons (by decide) ?_
  refine noSub_cons (by decide) ?_
  refine noSub_cons (by decide) ?_
  refine noSub_cons (by decide) ?_
  refine noSub_cons (by decide) ?_
  refine noSub_cons (by decide) ?_
  refine noSub_cons (by decide) ?_
  refine noSub_cons (by decide) ?_
  refine noSub_cons (by decide) ?_
  refine noSub_cons (by decide) ?_
  refine noSub_cons (by decide) ?_
  refine noSub_cons (by decide) ?_
  refine noSub_cons (by decide) ?_
  refine noSub_cons (by decide) ?_
  refine noSub_cons (by decide) ?_
  refine noSub_cons (by decide) ?_
  refine noSub_cons (by decide) ?_
  refine noSub_cons (by decide) ?_
  refine noSub_cons (by decide) ?_
  refine noSub_cons (by decide) ?_
  refine noSub_cons (by decide) ?_
  refine noSub_cons (by decide) ?_
  refine noSub_cons (by decide) ?_
  refine noSub_cons (by decide) ?_
  refine noSub_cons (by decide) ?_
  refine noSub_cons (by decide) ?_
  refine noSub_cons (by decide) ?_
  refine noSub_cons (by decide) ?_
  refine noSub_cons (by decide) ?_
  refine noSub_cons (by decide) ?_
  refine noSub_cons (by decide) ?_
  refine noSub_cons (by decide) ?_
  refine noSub_cons (by decide) ?_
  refine noSub_cons (by decide) ?_
  refine noSub_cons (by decide) ?_
  refine noSub_cons (by decide) ?_
  refine noSub_cons (by decide) ?_
  refine noSub_cons (by decide) ?_
  refine noSub_cons (by decide) ?_
  refine noSub_cons (by decide) ?_
  refine noSub_cons (by decide) ?_
  refine noSub_cons (by decide) ?_
  refine noSub_cons (by decide) ?_
  refine noSub_cons (by decide) ?_
  refine noSub_cons (by decide) ?_
  refine noSub_cons (by decide) ?_
  refine noSub_cons (by decide) ?_
  refine noSub_cons (by decide) ?_
  refine noSub_cons (by decide) ?_
  refine noSub_cons (by decide) ?_
  refine noSub_cons (by decide) ?_
  refine noSub_cons (by decide) ?_
  refine noSub_cons (by decide) ?_
  refine noSub_cons (by decide) ?_
  refine noSub_cons (by decide) ?_
  refine noSub_cons (by decide) ?_
  decide

set_option maxRecDepth 20000 in
/-- The cleanup card's output at the default inputs contains no
`<documentation_requirement>` block. -/
theorem cleanup_no_docreq :
    ¬ ContainsSub (Cleanup.generateXML Cleanup.defaultFormData)
      "<documentation_requirement>" := by
  show ¬ List.IsInfix ("<documentation_requirement>".data)
    ((sjoin (Cleanup.chunks Cleanup.defaultFormData)).data)
  refine noSub_cons (by decide) ?_
  refine noSub_cons (by decide) ?_
  refine noSub_cons (by decide) ?_
  refine noSub_cons (by decide) ?_
  refine noSub_cons (by decide) ?_
  refine noSub_cons (by decide) ?_
  refine noSub_cons (by decide) ?_
  refine noSub_cons (by decide) ?_
  refine noSub_cons (by decide) ?_
  refine noSub_cons (by decide) ?_
  refine noSub_cons (by decide) ?_
  refine noSub_cons (by decide) ?_
  refine noSub_cons (by decide) ?_
  refine noSub_cons (by decide) ?_
  refine noSub_cons (by decide) ?_
  refine noSub_cons (by decide) ?_
  refine noSub_cons (by decide) ?_
  refine noSub_cons (by decide) ?_
  refine noSub_cons (by decide) ?_
  refine noSub_cons (by decide) ?_
  refine noSub_cons (by decide) ?_
  refine noSub_cons (by decide) ?_
  refine noSub_cons (by decide) ?_
  refine noSub_cons (by decide) ?_
  refine noSub_cons (by decide) ?_
  refine noSub_cons (by decide) ?_
  refine noSub_cons (by decide) ?_
  refine noSub_cons (by decide) ?_
  refine noSub_cons (by decide) ?_
  refine noSub_cons (by decide) ?_
  refine noSub_cons (by decide) ?_
  refine noSub_cons (by decide) ?_
  refine noSub_cons (by decide) ?_
  refine noSub_cons (by decide) ?_
  refine noSub_cons (by decide) ?_
  refine noSub_cons (by decide) ?_
  refine noSub_cons (by decide) ?_
  refine noSub_cons (by decide) ?_
  refine noSub_cons (by decide) ?_
  refine noSub_cons (by decide) ?_
  refine noSub_cons (by decide) ?_
  refine noSub_cons (by decide) ?_
  refine noSub_cons (by decide) ?_
  refine noSub_cons (by decide) ?_
  refine noSub_cons (by decide) ?_
  refine noSub_cons (by decide) ?_
  refine noSub_cons (by decide) ?_
  refine noSub_cons (by decide) ?_
  refine noSub_cons (by decide) ?_
  refine noSub_cons (by decide) ?_
  refine noSub_cons (by decide) ?_
  refine noSub_cons (by decide) ?_
  refine noSub_cons (by decide) ?_
  refine noSub_cons (by decide) ?_
  refine noSub_cons (by decide) ?_
  refine noSub_cons (by decide) ?_
  refine noSub_cons (by decide) ?_
  refine noSub_cons (by decide) ?_
  refine noSub_cons (by decide) ?_
  refine noSub_cons (by decide) ?_
  refine noSub_cons (by decide) ?_
  refine noSub_cons (by decide) ?_
  refine noSub_cons (by decide) ?_
  refine noSub_cons (by decide) ?_
  refine noSub_cons (by decide) ?_
  refine noSub_cons (by decide) ?_
  refine noSub_cons (by decide) ?_
  refine noSub_cons (by decide) ?_
  refine noSub_cons (by decide) ?_
  refine noSub_cons (by decide) ?_
  refine noSub_cons (by decide) ?_
  refine noSub_cons (by decide) ?_
  refine noSub_cons (by decide) ?_
  refine noSub_cons (by decide) ?_
  refine noSub_cons (by decide) ?_
  refine noSub_cons (by decide) ?_
  refine noSub_cons (by decide) ?_
  refine noSub_cons (by decide) ?_
  refine noSub_cons (by decide) ?_
  refine noSub_cons (by decide) ?_
  refine noSub_cons (by decide) ?_
  refine noSub_cons (by decide) ?_
  refine noSub_cons (by decide) ?_
  refine noSub_cons (by decide) ?_
  refine noSub_cons (by decide) ?_
  refine noSub_cons (by decide) ?_
  refine noSub_cons (by decide) ?_
  refine noSub_cons (by decide) ?_
  refine noSub_cons (by decide) ?_
  refine noSub_cons (by decide) ?_
  decide

/-- C6 counterexample: the documentation card belongs to the current form
set and is not one of the historical variants, yet its rendered output (here
at the default inputs) contains no `<documentation_requirement>` block. -/
theorem claim_C6_counterexample :
    ¬ ContainsSub (Documentation.generateXML Documentation.defaultFormData)
      "<documentation_requirement>" :=
  documentation_no_docreq

set_option maxHeartbeats 1000000 in
/-- C6 (amended): a `<documentation_requirement>` block is present on every
input for bug_fix, feature_request, testing and security_audit; on
feature_change it is present whenever the `enableDocumentation` checkbox (on
by default) is set; the documentation and cleanup cards do not emit one (shown
at their default inputs). -/
theorem claim_C6_documentation_requirement_presence :
    (∀ d : BugFix.BugFixData, ContainsSub (BugFix.generateXML d) "<documentation_requirement>")
  ∧ (∀ d : FeatureRequest.FeatureRequestData, ContainsSub (FeatureRequest.generateXML d) "<documentation_requirement>")
  ∧ (∀ d : Testing.TestingData, ContainsSub (Testing.generateXML d) "<documentation_requirement>")
  ∧ (∀ d : SecurityAudit.SecurityAuditData, ContainsSub (SecurityAudit.generateXML d) "<documentation_requirement>")
  ∧ (∀ d : FeatureChange.FeatureChangeData, d.enableDocumentation = true →
      ContainsSub (FeatureChange.generateXML d) "<documentation_requirement>")
  ∧ ¬ ContainsSub (Documentation.generateXML Documentation.defaultFormData)
      "<documentation_requirement>"
  ∧ ¬ ContainsSub (Cleanup.generateXML Cleanup.defaultFormData)
      "<documentation_requirement>" :=
  ⟨fun d => sub_join_of_mem "    <documentation_requirement>\n" (by decide) (by simp [BugFix.chunks]),
   fun d => sub_join_of_mem "  <documentation_requirement>\n" (by decide) (by simp [FeatureRequest.chunks]),
   fun d => sub_join_of_mem "  <documentation_requirement>\n" (by decide) (by simp [Testing.chunks]),
   fun d => sub_join_of_mem "  <documentation_requirement>\n" (by decide) (by simp [SecurityAudit.chunks]),
   fun d hdoc => by
     refine sub_join_of_mem (FeatureChange.docBlock d) ?_ (by simp [FeatureChange.chunks])
     rw [FeatureChange.docBlock, hdoc]
     simp only [if_true]
     exact sub_join_of_mem "\n  <documentation_requirement>\n" (by decide) (by simp [FeatureChange.docChunks]),
   documentation_no_docreq,
   cleanup_no_docreq⟩

/-- Witness for C6 at a concrete input: the feature_change defaults (checkbox
on) contain the block. -/
theorem claim_C6_documentation_requirement_presence_witness :
    ContainsSub (FeatureChange.generateXML FeatureChange.defaultFormData)
      "<documentation_requirement>" :=
  claim_C6_documentation_requirement_presence.2.2.2.2.1 FeatureChange.defaultFormData rfl
